import Mathlib

/-!
# TerraWatch risk-engine verification

Shallow embedding of the TerraWatch backend's risk scoring core
(`backend/app/services` and `backend/app/models`) together with proofs about
the embedded operations.

Conventions used throughout:

* Python floats are modelled as exact rationals (`ℚ`) where the source code
  only performs field operations, and as real numbers (`ℝ`) where the source
  uses transcendental functions (`math.sin`, `math.exp`, `math.atan`, `**`).
* Python's `round(x, d)` (round-half-to-even on the scaled value) is modelled
  by `pyRound` / `roundTo` below.
* `numpy.clip(x, lo, hi)` is modelled by `clip lo hi x = max lo (min x hi)`.
* Wall-clock instants (`datetime.now`, `time` ticks) are passed explicitly as
  rational parameters; ISO-8601 timestamp strings produced by `isoformat()`
  compare lexicographically exactly as the underlying instants compare, so
  string comparison in the source is modelled as the numeric order on `ℚ`.
-/

/-- Round-half-to-even on a linearly ordered field with a floor, the rounding
mode of Python's built-in `round`.  `⌊x⌋ % 2 = 0` stands in for evenness of
the floor so the definition stays executable on `ℚ`. -/
def pyRound {α : Type} [LinearOrderedField α] [FloorRing α]
    [DecidableRel ((· < ·) : α → α → Prop)] (x : α) : ℤ :=
  if Int.fract x < 1/2 then ⌊x⌋
  else if 1/2 < Int.fract x then ⌊x⌋ + 1
  else if ⌊x⌋ % 2 = 0 then ⌊x⌋ else ⌊x⌋ + 1

/-- Python's `round(x, d)`: scale by `10^d`, round half to even, scale back. -/
def roundTo {α : Type} [LinearOrderedField α] [FloorRing α]
    [DecidableRel ((· < ·) : α → α → Prop)] (d : ℕ) (x : α) : α :=
  (pyRound (x * 10 ^ d) : α) / 10 ^ d

/-- `numpy.clip` / chained `max`-`min` clamping as used all over the models. -/
def clip {α : Type} [LinearOrder α] (lo hi x : α) : α :=
  max lo (min x hi)

/-- Python `str.lower()` for the ASCII table identifiers used by the lookup
dicts, modelled on the character list of the string. -/
def pyLower (s : String) : String := ⟨s.data.map Char.toLower⟩

namespace Composite

/-- Qualitative level table of `DisasterService._calculate_composite_risk`
(the 7-band table applied to the integer score). -/
def level (score : ℤ) : String :=
  if score < 15 then "Very Low"
  else if score < 30 then "Low"
  else if score < 45 then "Low-Moderate"
  else if score < 60 then "Moderate"
  else if score < 75 then "High"
  else if score < 90 then "Very High"
  else "Extreme"

/-- The raw composite value of `DisasterService._calculate_composite_risk`:
60 % worst hazard, 40 % weighted average. -/
def composite (landslide flood liquefaction wildfire : ℚ) : ℚ :=
  let maxRisk := max (max (max landslide flood) liquefaction) wildfire
  let avgRisk :=
    landslide * 0.30 + flood * 0.30 + liquefaction * 0.20 + wildfire * 0.20
  maxRisk * 0.6 + avgRisk * 0.4

/-- `score = int(round(composite * 100))` of
`DisasterService._calculate_composite_risk`. -/
def score (landslide flood liquefaction wildfire : ℚ) : ℤ :=
  pyRound (composite landslide flood liquefaction wildfire * 100)

/-- Full result of `DisasterService._calculate_composite_risk`. -/
def calculateCompositeRisk (landslide flood liquefaction wildfire : ℚ) :
    ℤ × String :=
  let s := score landslide flood liquefaction wildfire
  (s, level s)

/-- Specification predicate for claim C4: the score formula of
`_calculate_composite_risk`, its integer range, and the 7-band level table. -/
def ScoreSpec (l f q w : ℚ) : Prop :=
  Composite.score l f q w =
    pyRound (100 * (0.6 * max (max (max l f) q) w
      + 0.4 * (0.30 * l + 0.30 * f + 0.20 * q + 0.20 * w)))
  ∧ 0 ≤ Composite.score l f q w ∧ Composite.score l f q w ≤ 100
  ∧ (Composite.calculateCompositeRisk l f q w).1 = Composite.score l f q w
  ∧ ((Composite.calculateCompositeRisk l f q w).2 = "Very Low"
      ↔ Composite.score l f q w < 15)
  ∧ ((Composite.calculateCompositeRisk l f q w).2 = "Low"
      ↔ 15 ≤ Composite.score l f q w ∧ Composite.score l f q w < 30)
  ∧ ((Composite.calculateCompositeRisk l f q w).2 = "Low-Moderate"
      ↔ 30 ≤ Composite.score l f q w ∧ Composite.score l f q w < 45)
  ∧ ((Composite.calculateCompositeRisk l f q w).2 = "Moderate"
      ↔ 45 ≤ Composite.score l f q w ∧ Composite.score l f q w < 60)
  ∧ ((Composite.calculateCompositeRisk l f q w).2 = "High"
      ↔ 60 ≤ Composite.score l f q w ∧ Composite.score l f q w < 75)
  ∧ ((Composite.calculateCompositeRisk l f q w).2 = "Very High"
      ↔ 75 ≤ Composite.score l f q w ∧ Composite.score l f q w < 90)
  ∧ ((Composite.calculateCompositeRisk l f q w).2 = "Extreme"
      ↔ 90 ≤ Composite.score l f q w)

end Composite


/-! ## Cache layer (`cache_service.py`) -/

/-- One stored entry of the `cachetools.TTLCache` held by `CacheService`:
key, insertion instant and stored value.  A stored Python `None` is `none`. -/
structure CacheEntry (K V : Type) where
  key : K
  insertedAt : ℚ
  val : Option V

/-- State of `CacheService` (`cache_service.py`): the TTL cache plus the
cumulative hit/miss counters.  The wrapped `cachetools.TTLCache` is external
library code; it is modelled as an association list with per-entry insertion
times, where a lookup only sees an entry younger than `ttl`.  LRU eviction at
`maxsize` is not modelled: no claim under study exercises the size bound. -/
structure CacheService (K V : Type) where
  ttl : ℚ
  entries : List (CacheEntry K V)
  hits : ℕ
  misses : ℕ

/-- `TTLCache.get`: the stored value for a live entry, else Python `None`.
An absent key, an expired entry and a stored `None` are indistinguishable. -/
def CacheService.rawGet {K V : Type} [DecidableEq K]
    (c : CacheService K V) (now : ℚ) (k : K) : Option V :=
  match c.entries.find? (fun e => decide (e.key = k)) with
  | some e => if now < e.insertedAt + c.ttl then e.val else none
  | none => none

/-- `CacheService.get`: probe the TTL cache and bump the hit counter when the
probe is not `None`, the miss counter otherwise. -/
def CacheService.get {K V : Type} [DecidableEq K]
    (c : CacheService K V) (now : ℚ) (k : K) :
    Option V × CacheService K V :=
  match c.rawGet now k with
  | some v => (some v, { c with hits := c.hits + 1 })
  | none => (none, { c with misses := c.misses + 1 })

/-- `CacheService.set`: store (or overwrite) `k` with value `v` at `now`. -/
def CacheService.set {K V : Type} [DecidableEq K]
    (c : CacheService K V) (now : ℚ) (k : K) (v : Option V) :
    CacheService K V :=
  { c with entries :=
      ⟨k, now, v⟩ :: c.entries.filter (fun e => !(decide (e.key = k))) }

/-- `CacheService.delete`: `self._cache.pop(key, None)`. -/
def CacheService.delete {K V : Type} [DecidableEq K]
    (c : CacheService K V) (k : K) : CacheService K V :=
  { c with entries := c.entries.filter (fun e => !(decide (e.key = k))) }

/-- Result shape of the `CacheService.stats` property. -/
structure CacheStats where
  size : ℕ
  hits : ℕ
  misses : ℕ
  hitRate : ℚ

/-- `CacheService.stats`: size, counters, and
`round(hits / max(1, hits + misses) * 100, 1)`. -/
def CacheService.stats {K V : Type} (c : CacheService K V) : CacheStats :=
  { size := c.entries.length
    hits := c.hits
    misses := c.misses
    hitRate :=
      roundTo 1 ((c.hits : ℚ) / max 1 ((c.hits : ℚ) + (c.misses : ℚ)) * 100) }

/-- A cache key produced by `CacheService.make_key`.  The code builds
`f"{prefix}:{md5(json.dumps(kwargs, sort_keys=True))[:12]}"`; both the JSON
serialization of the name-sorted keyword list and the truncated MD5 digest
are deterministic functions of that list, so the key is modelled as the
operation tag paired with the name-sorted parameter list: structurally equal
inputs always produce the same key string in the code.  (Only this equality
direction is ever used below; no theorem relies on the digest being
collision-free.) -/
structure CacheKey where
  tag : String
  params : List (String × ℚ)
deriving DecidableEq

/-- `CacheService.make_key` with the parameter list sorted by name, as done
by `json.dumps(kwargs, sort_keys=True)`. -/
def makeKey (tag : String) (params : List (String × ℚ)) : CacheKey :=
  ⟨tag, List.insertionSort (fun a b => a.1 ≤ b.1) params⟩

/-- The keyword parameters of `DisasterService.assess_all_risks`. -/
structure RiskParams where
  latitude : ℚ
  longitude : ℚ
  elevation : ℚ
  slope : ℚ
  soilType : String
  sandPct : ℚ
  clayPct : ℚ
  landCover : String
  ndvi : ℚ
deriving DecidableEq

/-- Cache key computed at the top of `assess_all_risks`
(`disaster_service.py` lines 68–72): only the rounded coordinates are passed
to `make_key`. -/
def riskCacheKey (p : RiskParams) : CacheKey :=
  makeKey "risk" [("lat", roundTo 3 p.latitude), ("lon", roundTo 3 p.longitude)]

/-- Cache-interaction skeleton of `DisasterService.assess_all_risks`
(`disaster_service.py` lines 40–193).  The body between the cache probe and
the cache store — the weather fetches, the four model predictions and the
result assembly — is abstracted as `compute`, since it goes through the
external weather collaborator; the claim under study concerns which
parameters reach the cache key.  Python's truthiness test `if cached:` is
modelled as an `isSome` match: a computed risk report is a non-empty dict
and hence always truthy. -/
def assessAllRisks {V : Type} (compute : RiskParams → V)
    (c : CacheService CacheKey V) (now : ℚ) (p : RiskParams) :
    V × CacheService CacheKey V :=
  let probe := c.get now (riskCacheKey p)
  match probe.1 with
  | some v => (v, probe.2)
  | none =>
      let v := compute p
      (v, probe.2.set now (riskCacheKey p) (some v))

/-- The risk cache instance of `get_risk_cache()` (30 min TTL), empty. -/
def emptyRiskCache : CacheService CacheKey ℚ :=
  { ttl := 1800, entries := [], hits := 0, misses := 0 }

/-- Concrete `assess_all_risks` parameter vectors differing only in
elevation, used to refute claim C1. -/
def riskParamsElev100 : RiskParams :=
  ⟨35.5, 139.25, 100, 5, "Loam", 40, 25, "cropland", 0.5⟩

/-- Same location as `riskParamsElev100` but with elevation 200 m. -/
def riskParamsElev200 : RiskParams :=
  ⟨35.5, 139.25, 200, 5, "Loam", 40, 25, "cropland", 0.5⟩


/-! ## Alert lifecycle (`alert_service.py`) -/

/-- One alert dictionary created by `AlertService.create_alert`.  `id` is the
integer counter value — the code renders it as `f"alert-{n:06d}"`, an
injective rendering of the counter.  Timestamps are model instants (see the
file header on ISO-8601 ordering). -/
structure Alert where
  id : ℕ
  kind : String
  severity : String
  title : String
  description : String
  latitude : Option ℚ
  longitude : Option ℚ
  radiusKm : Option ℚ
  isActive : Bool
  createdAt : ℚ
  expiresAt : ℚ
deriving DecidableEq

/-- State of `AlertService`.  The Python alert dicts are shared mutably
between the history deque and the active index; they are therefore stored
once (`store`, addressed by id) while `history` (newest first, bounded by
`maxHistory`) and `active` (insertion-ordered dict keys) hold ids. -/
structure AlertService where
  maxHistory : ℕ
  store : List Alert
  history : List ℕ
  active : List ℕ
  subscribers : List String
  counter : ℕ
deriving DecidableEq

/-- A fresh `AlertService(max_history=500)`. -/
def alertInit : AlertService :=
  { maxHistory := 500, store := [], history := [], active := [],
    subscribers := [], counter := 0 }

/-- Find the alert record with a given id (both `self._active_alerts[id]`
accesses and the shared dict objects resolve through this). -/
def AlertService.lookup (s : AlertService) (i : ℕ) : Option Alert :=
  s.store.find? (fun a => decide (a.id = i))

/-- Mutation `alert["is_active"] = False` on the shared dict with id `i`. -/
def setInactive (store : List Alert) (i : ℕ) : List Alert :=
  store.map (fun a => if a.id = i then { a with isActive := false } else a)

/-- `AlertService._broadcast`: iterate over a snapshot of the subscriber
set; a raising callback is caught and logged, the loop continues, and the
subscriber set is left untouched.  `ok c = true` models a callback that
returns normally; the result is the list of subscribers actually delivered
to.  (The `asyncio.ensure_future` scheduling is abstracted: the broadcast
body runs as written, once.) -/
def broadcastLoop : List String → (String → Bool) → List String
  | [], _ => []
  | c :: rest, ok =>
      if ok c then c :: broadcastLoop rest ok else broadcastLoop rest ok

/-- `AlertService.create_alert`: bump the counter, build the alert dict with
`expires_at = now + ttl`, push it on the history deque (bounded, newest
first), index it as active, and broadcast.  Returns the alert, the
subscribers delivered to, and the new state. -/
def AlertService.createAlert (s : AlertService) (now ttlHours : ℚ)
    (kind severity title description : String)
    (latitude longitude radiusKm : Option ℚ) (ok : String → Bool) :
    Alert × List String × AlertService :=
  let n := s.counter + 1
  let a : Alert :=
    { id := n, kind := kind, severity := severity, title := title,
      description := description, latitude := latitude,
      longitude := longitude, radiusKm := radiusKm, isActive := true,
      createdAt := now, expiresAt := now + ttlHours }
  (a, broadcastLoop s.subscribers ok,
    { s with counter := n,
             store := a :: s.store,
             history := (n :: s.history).take s.maxHistory,
             active := s.active ++ [n] })

/-- `AlertService.dismiss_alert`: if the id is in the active index, flip the
shared dict's active flag and drop it from the index. -/
def AlertService.dismissAlert (s : AlertService) (i : ℕ) :
    Bool × AlertService :=
  if i ∈ s.active then
    (true, { s with store := setInactive s.store i,
                    active := s.active.erase i })
  else (false, s)

/-- The per-id test of `AlertService._expire_alerts`:
`alert.get("expires_at", "") < now` on ISO strings.  A hypothetical missing
record would contribute the empty string, which precedes every timestamp. -/
def expiredAt (s : AlertService) (now : ℚ) (i : ℕ) : Bool :=
  match s.lookup i with
  | some a => decide (a.expiresAt < now)
  | none => true

/-- `AlertService._expire_alerts`: deactivate and drop every active alert
whose expiry instant lies strictly before `now`. -/
def AlertService.expireAlerts (s : AlertService) (now : ℚ) : AlertService :=
  let expired := s.active.filter (fun i => expiredAt s now i)
  { s with store := expired.foldl (fun st i => setInactive st i) s.store,
           active := s.active.filter (fun i => !(expiredAt s now i)) }

/-- Severity sort rank of `get_active_alerts` (critical first, unknown
severities last). -/
def severityRank (sev : String) : ℕ :=
  if sev = "critical" then 0
  else if sev = "warning" then 1
  else if sev = "watch" then 2
  else if sev = "advisory" then 3
  else 4

/-- `AlertService.get_active_alerts`: lazily expire, then return the active
alerts (optionally filtered) sorted by severity rank and creation time,
truncated to `limit`.  Returns the list and the state after expiry. -/
def AlertService.getActiveAlerts (s : AlertService) (now : ℚ)
    (kindFilter severityFilter : Option String) (limit : ℕ) :
    List Alert × AlertService :=
  let s2 := s.expireAlerts now
  let l0 : List Alert := s2.active.filterMap s2.lookup
  let l1 : List Alert := match kindFilter with
    | some t => l0.filter (fun a => decide (a.kind = t))
    | none => l0
  let l2 : List Alert := match severityFilter with
    | some v => l1.filter (fun a => decide (a.severity = v))
    | none => l1
  let sorted := List.insertionSort
    (fun a b => severityRank a.severity < severityRank b.severity ∨
      (severityRank a.severity = severityRank b.severity ∧
        a.createdAt ≤ b.createdAt)) l2
  (sorted.take limit, s2)

/-- `AlertService.get_alert_history` (read-only). -/
def AlertService.getAlertHistory (s : AlertService) (limit : ℕ)
    (kindFilter : Option String) : List Alert :=
  let l0 : List Alert := s.history.filterMap s.lookup
  let l1 : List Alert := match kindFilter with
    | some t => l0.filter (fun a => decide (a.kind = t))
    | none => l0
  l1.take limit

/-- `AlertService.subscribe` (set insert). -/
def AlertService.subscribe (s : AlertService) (c : String) : AlertService :=
  if c ∈ s.subscribers then s
  else { s with subscribers := s.subscribers ++ [c] }

/-- `AlertService.unsubscribe` (`set.discard`). -/
def AlertService.unsubscribe (s : AlertService) (c : String) : AlertService :=
  { s with subscribers := s.subscribers.erase c }

/-- The `AlertService.stats` property: lazily expire, then report
`(total_alerts, active_alerts, subscribers)` with the state after expiry. -/
def AlertService.alertStats (s : AlertService) (now : ℚ) :
    AlertService × ℕ × ℕ × ℕ :=
  let s2 := s.expireAlerts now
  (s2, s2.history.length, s2.active.length, s2.subscribers.length)

/-- Client-visible operations on an `AlertService`, each tagged with the
wall-clock instant at which it runs. -/
inductive AlertOp where
  | create (now ttlHours : ℚ) (kind severity title description : String)
      (latitude longitude radiusKm : Option ℚ)
  | dismiss (i : ℕ)
  | readActive (now : ℚ)
  | readStats (now : ℚ)

/-- State effect of one operation (broadcast callbacks never touch the
state, so the callback behaviour is immaterial here). -/
def applyAlertOp (s : AlertService) : AlertOp → AlertService
  | .create now ttl kind sev title descr lat lon rad =>
      (s.createAlert now ttl kind sev title descr lat lon rad
        (fun _ => true)).2.2
  | .dismiss i => (s.dismissAlert i).2
  | .readActive now => (s.getActiveAlerts now none none 50).2
  | .readStats now => (s.alertStats now).1

/-- Run a sequence of operations from a given state. -/
def runAlertOps (s : AlertService) (ops : List AlertOp) : AlertService :=
  ops.foldl applyAlertOp s

/-- A stored alert record with id `i` has been deactivated (by dismissal or
expiry). -/
def AlertService.InactiveRecord (s : AlertService) (i : ℕ) : Prop :=
  ∃ a, a ∈ s.store ∧ a.id = i ∧ a.isActive = false

/-- Structural well-formedness of an `AlertService` state: record ids are
distinct and bounded by the counter, the active index is duplicate-free, and
it indexes exactly the records whose active flag is set. -/
def AlertService.Wf (s : AlertService) : Prop :=
  (s.store.map Alert.id).Nodup ∧
  (∀ a ∈ s.store, a.id ≤ s.counter) ∧
  s.active.Nodup ∧
  (∀ i : ℕ, i ∈ s.active ↔ ∃ a, a ∈ s.store ∧ a.id = i ∧ a.isActive = true)


/-- An alert service with two subscribed websocket callbacks. -/
def twoSubsService : AlertService :=
  (alertInit.subscribe "a").subscribe "b"

/-- A callback behaviour in which subscriber "a" raises and every other
subscriber returns normally. -/
def failsOnA : String → Bool := fun c => c != "a"


/-! ## Hazard models over the reals -/

noncomputable section

/-- The 6-band probability table shared by `LandslideModel._classify_risk`,
`FloodModel._classify_risk` and `FireModel._classify_risk` (identical
bodies). -/
def classifyProbabilityRisk (p : ℝ) : String :=
  if p < 0.1 then "Very Low"
  else if p < 0.25 then "Low"
  else if p < 0.45 then "Moderate"
  else if p < 0.65 then "High"
  else if p < 0.8 then "Very High"
  else "Extreme"

/-- `_get_contributing_factors` shared shape: stable-sort the named factor
scores descending (Python's `sorted(..., key=..., reverse=True)` keeps the
dict insertion order on ties), keep the first `k`, drop entries not
exceeding 0.3, and map to the display names. -/
def topFactors (k : ℕ) (name : String → String)
    (scores : List (String × ℝ)) : List String :=
  (((List.insertionSort (fun a b => b.2 ≤ a.2) scores).take k).filter
    (fun p => decide ((0.3:ℝ) < p.2))).map (fun p => name p.1)

/-- `math.radians`. -/
def radians (deg : ℝ) : ℝ := deg * Real.pi / 180

namespace Landslide

/-- Keyword arguments of `LandslideModel.predict` (defaults in the source:
elevation 100, slope 10, aspect 180, curvature 0, soil_moisture 30,
soil_type "Loam", clay_pct 25, rainfall_mm 50, ndvi 0.5,
distance_to_fault_km 50, distance_to_river_km 5, land_cover "forest",
lithology "sedimentary"). -/
structure Input where
  latitude : ℝ
  longitude : ℝ
  elevation : ℝ
  slope : ℝ
  aspect : ℝ
  curvature : ℝ
  soilMoisture : ℝ
  soilType : String
  clayPct : ℝ
  rainfallMm : ℝ
  ndvi : ℝ
  distFaultKm : ℝ
  distRiverKm : ℝ
  landCover : String
  lithology : String

/-- `LandslideModel._slope_factor`. -/
def slopeFactor (slope : ℝ) : ℝ :=
  if slope < 5 then 0.05
  else if slope < 15 then 0.15 + (slope - 5) / 10 * 0.2
  else if slope < 30 then 0.35 + (slope - 15) / 15 * 0.3
  else if slope < 45 then 0.65 + (slope - 30) / 15 * 0.25
  else 0.9

/-- `LandslideModel._aspect_factor`. -/
def aspectFactor (aspect : ℝ) : ℝ :=
  0.3 + 0.4 * |Real.sin (radians aspect)|

/-- `LandslideModel._curvature_factor`. -/
def curvatureFactor (curvature : ℝ) : ℝ :=
  if curvature < -2 then 0.8
  else if curvature < 0 then 0.5 + |curvature| * 0.15
  else if curvature < 2 then 0.3
  else 0.2

/-- `LandslideModel._elevation_factor`. -/
def elevationFactor (elevation : ℝ) : ℝ :=
  if elevation < 200 then 0.2
  else if elevation < 500 then 0.4
  else if elevation < 1500 then 0.6
  else if elevation < 3000 then 0.7
  else 0.5

/-- The `type_risk` table of `LandslideModel._soil_factor` (`dict.get` with
default 0.4). -/
def soilTypeRisk (soilType : String) : ℝ :=
  if soilType = "Clay" then 0.8
  else if soilType = "Silty Clay" then 0.75
  else if soilType = "Sandy Clay" then 0.7
  else if soilType = "Clay Loam" then 0.6
  else if soilType = "Silty Clay Loam" then 0.55
  else if soilType = "Loam" then 0.4
  else if soilType = "Silt Loam" then 0.45
  else if soilType = "Sandy Loam" then 0.3
  else if soilType = "Sand" then 0.2
  else 0.4

/-- `LandslideModel._soil_factor`. -/
def soilFactor (soilType : String) (clayPct moisture : ℝ) : ℝ :=
  clip 0 1 (soilTypeRisk soilType * 0.4 + min 1 (moisture / 80) * 0.35 +
    min 1 (clayPct / 50) * 0.25)

/-- `LandslideModel._rainfall_factor`. -/
def rainfallFactor (rainfall : ℝ) : ℝ :=
  if rainfall < 10 then 0.05
  else if rainfall < 30 then 0.15
  else if rainfall < 50 then 0.3
  else if rainfall < 100 then 0.5
  else if rainfall < 200 then 0.75
  else 0.9

/-- The `cover_risk` table of `LandslideModel._vegetation_factor`
(lower-cased lookup, default 0.4). -/
def coverRisk (landCover : String) : ℝ :=
  if pyLower landCover = "forest" then 0.1
  else if pyLower landCover = "grassland" then 0.3
  else if pyLower landCover = "shrubland" then 0.25
  else if pyLower landCover = "cropland" then 0.5
  else if pyLower landCover = "bare" then 0.9
  else if pyLower landCover = "urban" then 0.3
  else 0.4

/-- `LandslideModel._vegetation_factor`. -/
def vegetationFactor (ndvi : ℝ) (landCover : String) : ℝ :=
  clip 0 1 (coverRisk landCover * 0.5 + max 0 (1 - ndvi * 1.5) * 0.5)

/-- `LandslideModel._fault_proximity_factor`. -/
def faultProximityFactor (d : ℝ) : ℝ :=
  if d < 5 then 0.9 else if d < 20 then 0.6 else if d < 50 then 0.3 else 0.1

/-- `LandslideModel._river_proximity_factor`. -/
def riverProximityFactor (d : ℝ) : ℝ :=
  if d < 0.5 then 0.8 else if d < 2 then 0.5 else if d < 5 then 0.3 else 0.1

/-- `LandslideModel._lithology_factor` (lower-cased lookup, default 0.5). -/
def lithologyRisk (lith : String) : ℝ :=
  if pyLower lith = "sedimentary" then 0.6
  else if pyLower lith = "metamorphic" then 0.5
  else if pyLower lith = "volcanic" then 0.7
  else if pyLower lith = "igneous" then 0.3
  else if pyLower lith = "shale" then 0.8
  else if pyLower lith = "limestone" then 0.5
  else if pyLower lith = "sandstone" then 0.6
  else if pyLower lith = "granite" then 0.2
  else if pyLower lith = "clay" then 0.85
  else if pyLower lith = "loose" then 0.9
  else 0.5

/-- The `scores` dict of `LandslideModel.predict`, in insertion order. -/
def scoresOf (x : Input) : List (String × ℝ) :=
  [("slope", slopeFactor x.slope),
   ("rainfall", rainfallFactor x.rainfallMm),
   ("soil", soilFactor x.soilType x.clayPct x.soilMoisture),
   ("vegetation", vegetationFactor x.ndvi x.landCover),
   ("lithology", lithologyRisk x.lithology),
   ("curvature", curvatureFactor x.curvature),
   ("fault", faultProximityFactor x.distFaultKm),
   ("river", riverProximityFactor x.distRiverKm),
   ("elevation", elevationFactor x.elevation),
   ("aspect", aspectFactor x.aspect)]

/-- `sum(weights[k] * scores[k] for k in weights)` over the weights dict. -/
def weightedSum (x : Input) : ℝ :=
  0.25 * slopeFactor x.slope +
  0.18 * rainfallFactor x.rainfallMm +
  0.15 * soilFactor x.soilType x.clayPct x.soilMoisture +
  0.10 * vegetationFactor x.ndvi x.landCover +
  0.08 * lithologyRisk x.lithology +
  0.07 * curvatureFactor x.curvature +
  0.06 * faultProximityFactor x.distFaultKm +
  0.04 * riverProximityFactor x.distRiverKm +
  0.04 * elevationFactor x.elevation +
  0.03 * aspectFactor x.aspect

/-- `LandslideModel._apply_regional_adjustment`. -/
def regionalAdjust (prob lat lon : ℝ) : ℝ :=
  clip 0 0.99
    (if 25 ≤ lat ∧ lat ≤ 38 ∧ 70 ≤ lon ∧ lon ≤ 100 then prob * 1.2
     else if 33 ≤ lat ∧ lat ≤ 43 ∧ 129 ≤ lon ∧ lon ≤ 146 then prob * 1.15
     else if -40 ≤ lat ∧ lat ≤ 10 ∧ -80 ≤ lon ∧ lon ≤ -65 then prob * 1.15
     else if 43 ≤ lat ∧ lat ≤ 48 ∧ 5 ≤ lon ∧ lon ≤ 17 then prob * 1.1
     else prob)

/-- The clamped pre-rounding probability of `LandslideModel.predict`:
weighted factor sum clipped to `[0,1]`, then regionally adjusted and clipped
to `[0,0.99]`. -/
def probabilityRaw (x : Input) : ℝ :=
  regionalAdjust (clip 0 1 (weightedSum x)) x.latitude x.longitude

/-- The `factor_names` table of
`LandslideModel._get_contributing_factors`. -/
def factorName (k : String) : String :=
  if k = "slope" then "steep_slope"
  else if k = "rainfall" then "heavy_rainfall"
  else if k = "soil" then "unstable_soil"
  else if k = "vegetation" then "poor_vegetation_cover"
  else if k = "lithology" then "susceptible_geology"
  else if k = "curvature" then "concave_terrain"
  else if k = "fault" then "fault_proximity"
  else if k = "river" then "river_undercutting"
  else if k = "elevation" then "elevation_zone"
  else "slope_orientation"

/-- Result record of `LandslideModel.predict`. -/
structure Assessment where
  probability : ℝ
  riskLevel : String
  contributingFactors : List String
  factorScores : List (String × ℝ)

/-- `LandslideModel.predict`: the returned probability is the raw value
rounded to 3 decimals, while the risk level is classified from the raw
value. -/
def predict (x : Input) : Assessment :=
  { probability := roundTo 3 (probabilityRaw x)
    riskLevel := classifyProbabilityRisk (probabilityRaw x)
    contributingFactors := topFactors 3 factorName (scoresOf x)
    factorScores := (scoresOf x).map (fun p => (p.1, roundTo 3 p.2)) }

end Landslide

end


noncomputable section

/-- Concrete `LandslideModel.predict` input used to separate the returned
risk level from the banding of the returned rounded probability: the raw
probability works out to exactly 0.0998, which classifies as "Very Low" but
rounds to 0.1, which the table maps to "Low". -/
def landslideCexInput : Landslide.Input :=
  ⟨0, 0, 100, 3, 0, 2, 688/105, "Sand", 0, 5, 1, 50, 5, "forest", "granite"⟩

end


noncomputable section

namespace Erosion

/-- `ErosionResult` dataclass of `erosion_model.py`. -/
structure Result where
  soilLossTonsHaYr : ℝ
  riskLevel : String
  R : ℝ
  K : ℝ
  LS : ℝ
  C : ℝ
  P : ℝ

/-- `ErosionModel._calculate_r_factor`: `0.0483 * P ** 1.61` clamped to
`[0, 20000]`, with an explicit 0 for non-positive precipitation. -/
def rFactor (annualPrecipMm : ℝ) : ℝ :=
  if annualPrecipMm ≤ 0 then 0
  else clip 0 20000 (0.0483 * annualPrecipMm ^ (1.61 : ℝ))

/-- `ErosionModel._calculate_k_factor` (Williams 1995 sub-factors; the
`organic_matter_pct` local of the source is computed but never used). -/
def kFactor (sandPct siltPct clayPct organicCarbonPct : ℝ) : ℝ :=
  let fCsand := 0.2 + 0.3 * Real.exp (-0.0256 * sandPct * (1 - siltPct / 100))
  let clSi := siltPct / max (clayPct + siltPct) 0.01
  let fClSi := if clSi < 0.7
    then clSi / (clSi + Real.exp (2.478 - 30.59 * clSi)) else 0.7
  let fOrgc := 1 - (0.25 * organicCarbonPct /
    (organicCarbonPct + Real.exp (3.72 - 2.95 * organicCarbonPct)))
  let sn := sandPct / 100
  let fHisand := 1 - (0.7 * (1 - sn) /
    ((1 - sn) + Real.exp (-5.51 + 22.9 * (1 - sn))))
  clip 0 0.8 (fCsand * fClSi * fOrgc * fHisand)

/-- `ErosionModel._calculate_ls_factor` (McCool et al. 1987/1989). -/
def lsFactor (slopePct slopeLengthM : ℝ) : ℝ :=
  let len := if slopeLengthM ≤ 0 then 22.13 else slopeLengthM
  let sinSlope := Real.sin (Real.arctan (slopePct / 100))
  let m : ℝ := if slopePct < 1 then 0.2 else if slopePct < 3 then 0.3
    else if slopePct < 5 then 0.4 else 0.5
  let l := (len / 22.13) ^ m
  let s := if slopePct < 9 then 10.8 * sinSlope + 0.03
    else 16.8 * sinSlope - 0.50
  clip 0.01 100 (l * s)

/-- The `cover_factors` table of `ErosionModel._calculate_c_factor`
(lower-cased lookup, default 0.15). -/
def coverFactorBase (landCover : String) : ℝ :=
  if pyLower landCover = "forest" then 0.001
  else if pyLower landCover = "dense_forest" then 0.001
  else if pyLower landCover = "grassland" then 0.01
  else if pyLower landCover = "shrubland" then 0.02
  else if pyLower landCover = "cropland" then 0.35
  else if pyLower landCover = "agriculture" then 0.35
  else if pyLower landCover = "bare" then 1.0
  else if pyLower landCover = "urban" then 0.01
  else if pyLower landCover = "water" then 0.0
  else if pyLower landCover = "wetland" then 0.01
  else if pyLower landCover = "pasture" then 0.02
  else 0.15

/-- `ErosionModel._calculate_c_factor`. -/
def cFactor (landCover : String) (ndvi : ℝ) : ℝ :=
  let baseC := coverFactorBase landCover
  let c := if 0 < ndvi then baseC * max 0.1 (1 - ndvi * 1.5) else baseC
  clip 0 1 c

/-- The `practice_factors` table of `ErosionModel._calculate_p_factor`
(lower-cased lookup, default 1.0). -/
def practiceFactorBase (practice : String) : ℝ :=
  if pyLower practice = "none" then 1.0
  else if pyLower practice = "contour_farming" then 0.5
  else if pyLower practice = "strip_cropping" then 0.3
  else if pyLower practice = "terracing" then 0.15
  else if pyLower practice = "grassed_waterways" then 0.4
  else if pyLower practice = "no_till" then 0.25
  else if pyLower practice = "mulching" then 0.3
  else if pyLower practice = "cover_crops" then 0.35
  else 1.0

/-- `ErosionModel._calculate_p_factor`: practice lookup, amplified (capped
at 1.0) on slopes steeper than 25 %. -/
def pFactor (practice : String) (slopePct : ℝ) : ℝ :=
  let p := practiceFactorBase practice
  if 25 < slopePct ∧ p < 1 then min 1 (p * 1.5) else p

/-- `ErosionModel._classify_risk`: iterate the `RISK_THRESHOLDS` bands
`low ≤ A < high` in declaration order; the final band is `[50, ∞)` and the
fallthrough is also "Severe", so the two collapse into the last branch. -/
def classifySoilLoss (a : ℝ) : String :=
  if 0 ≤ a ∧ a < 2 then "Very Low"
  else if 2 ≤ a ∧ a < 5 then "Low"
  else if 5 ≤ a ∧ a < 10 then "Moderate"
  else if 10 ≤ a ∧ a < 20 then "High"
  else if 20 ≤ a ∧ a < 50 then "Very High"
  else "Severe"

/-- `ErosionModel.calculate`: `A = R·K·LS·C·P`, floored at 0 after rounding
to 2 decimals, classified by the 6-band soil-loss table; the factor fields
are reported rounded. -/
def calculate (annualPrecipMm sandPct siltPct clayPct organicCarbonPct
    slopePct slopeLengthM : ℝ) (landCover : String) (ndvi : ℝ)
    (conservationPractice : String) : Result :=
  let r := rFactor annualPrecipMm
  let k := kFactor sandPct siltPct clayPct organicCarbonPct
  let ls := lsFactor slopePct slopeLengthM
  let c := cFactor landCover ndvi
  let p := pFactor conservationPractice slopePct
  let a := max 0 (roundTo 2 (r * k * ls * c * p))
  { soilLossTonsHaYr := a
    riskLevel := classifySoilLoss a
    R := roundTo 1 r
    K := roundTo 4 k
    LS := roundTo 2 ls
    C := roundTo 3 c
    P := roundTo 2 p }

/-- Specification predicate for claim C7: the RUSLE product formula with the
documented clamp ranges for the factors, non-negativity of the reported soil
loss, and the 6-band risk table. -/
def CalculateSpec (annualPrecipMm sandPct siltPct clayPct organicCarbonPct
    slopePct slopeLengthM : ℝ) (landCover : String) (ndvi : ℝ)
    (conservationPractice : String) : Prop :=
  let res := calculate annualPrecipMm sandPct siltPct clayPct
    organicCarbonPct slopePct slopeLengthM landCover ndvi
    conservationPractice
  res.soilLossTonsHaYr =
    max 0 (roundTo 2 (rFactor annualPrecipMm *
      kFactor sandPct siltPct clayPct organicCarbonPct *
      lsFactor slopePct slopeLengthM * cFactor landCover ndvi *
      pFactor conservationPractice slopePct))
  ∧ rFactor annualPrecipMm =
      max 0 (min (0.0483 * annualPrecipMm ^ (1.61 : ℝ)) 20000)
  ∧ 0 ≤ kFactor sandPct siltPct clayPct organicCarbonPct
  ∧ kFactor sandPct siltPct clayPct organicCarbonPct ≤ 0.8
  ∧ 0.01 ≤ lsFactor slopePct slopeLengthM
  ∧ lsFactor slopePct slopeLengthM ≤ 100
  ∧ 0 ≤ cFactor landCover ndvi
  ∧ cFactor landCover ndvi ≤ 1
  ∧ 0 ≤ res.soilLossTonsHaYr
  ∧ res.riskLevel = classifySoilLoss res.soilLossTonsHaYr
  ∧ (res.riskLevel = "Very Low" ↔ res.soilLossTonsHaYr < 2)
  ∧ (res.riskLevel = "Low" ↔
      2 ≤ res.soilLossTonsHaYr ∧ res.soilLossTonsHaYr < 5)
  ∧ (res.riskLevel = "Moderate" ↔
      5 ≤ res.soilLossTonsHaYr ∧ res.soilLossTonsHaYr < 10)
  ∧ (res.riskLevel = "High" ↔
      10 ≤ res.soilLossTonsHaYr ∧ res.soilLossTonsHaYr < 20)
  ∧ (res.riskLevel = "Very High" ↔
      20 ≤ res.soilLossTonsHaYr ∧ res.soilLossTonsHaYr < 50)
  ∧ (res.riskLevel = "Severe" ↔ 50 ≤ res.soilLossTonsHaYr)

end Erosion

end


noncomputable section

namespace Soil

/-- Final renormalization block of
`SoilPredictionModel._predict_analytical` (soil_model.py lines 178–183):
round the three percentages to 1 decimal, rescale sand and silt by the
rounded total, and set clay to the rounded remainder to 100. -/
def textureFinalize (sand silt clay : ℝ) : ℝ × ℝ × ℝ :=
  let sandR := roundTo 1 sand
  let siltR := roundTo 1 silt
  let clayR := roundTo 1 clay
  let total := sandR + siltR + clayR
  let sandF := roundTo 1 (sandR / total * 100)
  let siltF := roundTo 1 (siltR / total * 100)
  let clayF := roundTo 1 (100 - sandF - siltF)
  (sandF, siltF, clayF)

/-- The texture triple of `SoilPredictionModel._predict_analytical`
(lines 152–183): climate/latitude banding, a longitude-derived sine
perturbation on sand and clay, silt as the remainder (the banded silt value
is overwritten), an extra renormalization when silt falls below 5, then the
final rounding block. -/
def analyticalTexture (latitude longitude elevation meanPrecip : ℝ) :
    ℝ × ℝ × ℝ :=
  let base : ℝ × ℝ × ℝ :=
    if 2000 < elevation then (50, 30, 20)
    else if 50 < |latitude| then (35, 40, 25)
    else if |latitude| < 15 then (30, 25, 45)
    else if 1500 < meanPrecip then (25, 30, 45)
    else if meanPrecip < 300 then (65, 25, 10)
    else (40, 35, 25)
  let lonFactor := Real.sin (radians longitude) * 5
  let sand := clip 5 90 (base.1 + lonFactor)
  let clay := clip 5 75 (base.2.2 - lonFactor * 0.5)
  let silt := 100 - sand - clay
  if silt < 5 then
    let total := sand + clay + 5
    textureFinalize (sand / total * 100) (5 / total * 100)
      (clay / total * 100)
  else
    textureFinalize sand silt clay

/-- Texture post-processing of `SoilPredictionModel._predict_with_model`
(lines 245–249) together with the 1-decimal rounding applied when the
result dict is assembled (lines 260–263).  The raw `sand`/`silt` ensemble
predictions are arbitrary reals produced by model artefacts external to the
repository, so they are taken as parameters. -/
def modelTexture (sandPred siltPred : ℝ) : ℝ × ℝ × ℝ :=
  let sand := clip 5 90 sandPred
  let silt := clip 5 80 siltPred
  let clay := clip 5 75 (100 - sand - silt)
  let total := sand + silt + clay
  (roundTo 1 (sand / total * 100), roundTo 1 (silt / total * 100),
   roundTo 1 (clay / total * 100))

end Soil

end


noncomputable section

namespace Fire

/-- Keyword arguments of `FireModel.predict` (source defaults: temperature
25, humidity 50, wind 15, ndvi 0.5, soil_moisture 30, rainfall_last_7d 20,
slope 5, elevation 300, land_cover "forest", days_since_rain 3; the latter
is an `int` in the signature and only enters real-valued arithmetic). -/
structure Input where
  latitude : ℝ
  longitude : ℝ
  temperatureC : ℝ
  humidityPct : ℝ
  windSpeedKmh : ℝ
  ndvi : ℝ
  soilMoisture : ℝ
  rainfallLast7dMm : ℝ
  slope : ℝ
  elevation : ℝ
  landCover : String
  daysSinceRain : ℝ

/-- `FireModel._fuel_moisture_factor`. -/
def fuelMoistureFactor (ndvi soilMoisture rainfall7d daysSinceRain : ℝ) : ℝ :=
  let moistureDeficit := max 0 (1 - soilMoisture / 50)
  let drySpell := min 1 (daysSinceRain / 30)
  let rainBenefit := min 0.5 (rainfall7d / 50)
  let deadFuel := max 0 (0.8 - ndvi)
  clip 0 1 (moistureDeficit * 0.3 + drySpell * 0.3 + deadFuel * 0.2 +
    (0.5 - rainBenefit) * 0.2)

/-- `FireModel._weather_factor`. -/
def weatherFactor (temp humidity wind : ℝ) : ℝ :=
  let tempScore : ℝ := if 40 < temp then 0.95 else if 35 < temp then 0.8
    else if 30 < temp then 0.6 else if 25 < temp then 0.4
    else if 15 < temp then 0.2 else 0.05
  let humidityScore := max 0 (1 - humidity / 80)
  let windScore : ℝ := if 60 < wind then 0.95 else if 40 < wind then 0.8
    else if 25 < wind then 0.6 else if 15 < wind then 0.3 else 0.1
  tempScore * 0.35 + humidityScore * 0.35 + windScore * 0.3

/-- `FireModel._terrain_factor`. -/
def terrainFactor (slope elevation latitude : ℝ) : ℝ :=
  let slopeScore := min 1 (slope / 45)
  let elevScore : ℝ := if 500 < elevation ∧ elevation < 2000 then 0.6
    else if elevation < 500 then 0.4 else 0.3
  slopeScore * 0.6 + elevScore * 0.4

/-- `FireModel._fuel_type_factor` (lower-cased lookup, default 0.4). -/
def fuelTypeFactor (landCover : String) : ℝ :=
  if pyLower landCover = "forest" then 0.7
  else if pyLower landCover = "dense_forest" then 0.6
  else if pyLower landCover = "shrubland" then 0.8
  else if pyLower landCover = "grassland" then 0.75
  else if pyLower landCover = "cropland" then 0.4
  else if pyLower landCover = "bare" then 0.05
  else if pyLower landCover = "urban" then 0.15
  else if pyLower landCover = "water" then 0.0
  else if pyLower landCover = "wetland" then 0.1
  else 0.4

/-- `FireModel._seasonal_adjustment`; the wall-clock
`datetime.datetime.now().month` is passed explicitly as `month`. -/
def seasonalAdjustment (prob latitude : ℝ) (month : ℕ) : ℝ :=
  if 0 < latitude then
    if 6 ≤ month ∧ month ≤ 10 then prob * 1.2
    else if month = 4 ∨ month = 5 ∨ month = 11 then prob * 1.0
    else prob * 0.6
  else
    if month = 12 ∨ month = 1 ∨ month = 2 ∨ month = 3 then prob * 1.2
    else if month = 10 ∨ month = 11 ∨ month = 4 then prob * 1.0
    else prob * 0.6

/-- `FireModel._vegetation_dryness_index`. -/
def vegetationDrynessIndex (ndvi moisture temp humidity : ℝ) : ℝ :=
  clip 0 1 ((1 - ndvi) * 0.3 + (1 - moisture / 60) * 0.3 +
    min 1 (temp / 45) * 0.2 + (1 - humidity / 100) * 0.2)

/-- `FireModel._fire_weather_index`. -/
def fireWeatherIndex (temp humidity wind rain7d : ℝ) : ℝ :=
  clip 0 100 ((max 0 ((temp - 10) * 2) + max 0 (100 - humidity) +
    wind * 0.5 + max 0 (30 - rain7d)) / 4)

/-- `FireModel._spread_potential`. -/
def spreadPotential (wind slope fuel : ℝ) : String :=
  let spread := wind * 0.4 + slope * 0.3 + fuel * 30
  if 40 < spread then "Extreme" else if 25 < spread then "High"
  else if 15 < spread then "Moderate" else "Low"

/-- The `names` table of `FireModel._get_contributing_factors`. -/
def factorName (k : String) : String :=
  if k = "fuel_moisture" then "dry_vegetation"
  else if k = "weather" then "hot_dry_windy"
  else if k = "terrain" then "steep_terrain"
  else "flammable_vegetation"

/-- The `scores` dict of `FireModel.predict`, in insertion order. -/
def scoresOf (x : Input) : List (String × ℝ) :=
  [("fuel_moisture", fuelMoistureFactor x.ndvi x.soilMoisture
      x.rainfallLast7dMm x.daysSinceRain),
   ("weather", weatherFactor x.temperatureC x.humidityPct x.windSpeedKmh),
   ("terrain", terrainFactor x.slope x.elevation x.latitude),
   ("fuel_type", fuelTypeFactor x.landCover)]

/-- Result record of `FireModel.predict`. -/
structure Assessment where
  probability : ℝ
  riskLevel : String
  vegetationDryness : ℝ
  fwi : ℝ
  factorScores : List (String × ℝ)
  spread : String
  contributingFactors : List String

/-- The clamped pre-rounding fire probability: weighted factor sum,
seasonally adjusted, clipped to `[0, 0.99]`. -/
def probabilityRaw (x : Input) (month : ℕ) : ℝ :=
  clip 0 0.99 (seasonalAdjustment
    (0.30 * fuelMoistureFactor x.ndvi x.soilMoisture x.rainfallLast7dMm
        x.daysSinceRain +
      0.30 * weatherFactor x.temperatureC x.humidityPct x.windSpeedKmh +
      0.15 * terrainFactor x.slope x.elevation x.latitude +
      0.25 * fuelTypeFactor x.landCover)
    x.latitude month)

/-- `FireModel.predict`. -/
def predict (month : ℕ) (x : Input) : Assessment :=
  { probability := roundTo 3 (probabilityRaw x month)
    riskLevel := classifyProbabilityRisk (probabilityRaw x month)
    vegetationDryness := roundTo 2 (vegetationDrynessIndex x.ndvi
      x.soilMoisture x.temperatureC x.humidityPct)
    fwi := roundTo 1 (fireWeatherIndex x.temperatureC x.humidityPct
      x.windSpeedKmh x.rainfallLast7dMm)
    factorScores := (scoresOf x).map (fun p => (p.1, roundTo 3 p.2))
    spread := spreadPotential x.windSpeedKmh x.slope
      (fuelMoistureFactor x.ndvi x.soilMoisture x.rainfallLast7dMm
        x.daysSinceRain)
    contributingFactors := topFactors 2 factorName (scoresOf x) }

end Fire

/-- A concrete `FireModel.predict` input (the source-code defaults). -/
def fireWitnessInput : Fire.Input :=
  ⟨0, 0, 25, 50, 15, 0.5, 30, 20, 5, 300, "forest", 3⟩

/-- Specification of a contributing-factors list `out` derived from the
named sub-factor scores `scores`: `out` lists (in descending score order,
at most `k` of them) scores drawn from `scores` that exceed 0.3, it
contains every factor that exceeds 0.3 and is matched or beaten by at most
`k` scores in total, and it omits every factor strictly outranked by at
least `k` scores (factor names being unique in the weighting tables). -/
def ContributingFactorsSpec (k : ℕ) (names : String → String)
    (scores : List (String × ℝ)) (out : List String) : Prop :=
  (∃ sel : List (String × ℝ),
    out = sel.map (fun p => names p.1) ∧
    sel.Sorted (fun a b => b.2 ≤ a.2) ∧
    (∀ p ∈ sel, p ∈ scores ∧ (0.3:ℝ) < p.2) ∧
    sel.length ≤ k) ∧
  (∀ p ∈ scores, (0.3:ℝ) < p.2 →
    scores.countP (fun q => decide (p.2 ≤ q.2)) ≤ k →
    names p.1 ∈ out) ∧
  (∀ p ∈ scores, k ≤ scores.countP (fun q => decide (p.2 < q.2)) →
    (∀ q ∈ scores, names q.1 = names p.1 → q = p) →
    names p.1 ∉ out)

end


noncomputable section

namespace Flood

/-- Keyword arguments of `FloodModel.predict` (the `soil_type` argument is
accepted by the source but never used by any factor). -/
structure Input where
  latitude : ℝ
  longitude : ℝ
  elevation : ℝ
  slope : ℝ
  rainfallMm24h : ℝ
  rainfallMmAnnual : ℝ
  soilType : String
  sandPct : ℝ
  clayPct : ℝ
  soilMoisture : ℝ
  distRiverKm : ℝ
  flowAccumulation : ℝ
  landCover : String
  ndvi : ℝ
  drainageDensity : ℝ

/-- `FloodModel._terrain_factor`. -/
def terrainFactor (elevation slope : ℝ) : ℝ :=
  let elevScore : ℝ := if elevation < 10 then 0.9
    else if elevation < 50 then 0.7 else if elevation < 200 then 0.4
    else if elevation < 500 then 0.2 else 0.1
  let slopeScore : ℝ := if slope < 1 then 0.9 else if slope < 3 then 0.7
    else if slope < 8 then 0.4 else if slope < 15 then 0.2 else 0.1
  elevScore * 0.5 + slopeScore * 0.5

/-- `FloodModel._rainfall_factor`. -/
def rainfallFactor (rainfall24h annual : ℝ) : ℝ :=
  let intensity : ℝ := if rainfall24h < 10 then 0.05
    else if rainfall24h < 30 then 0.2 else if rainfall24h < 50 then 0.4
    else if rainfall24h < 100 then 0.6 else if rainfall24h < 200 then 0.8
    else 0.95
  intensity * 0.7 + min 1 (annual / 2000) * 0.3

/-- `FloodModel._infiltration_factor`. -/
def infiltrationFactor (sandPct clayPct moisture : ℝ) : ℝ :=
  min 1 (clayPct / 50) * 0.3 + min 1 (moisture / 60) * 0.4 +
    max 0 (1 - sandPct / 80) * 0.3

/-- `FloodModel._water_proximity_factor`. -/
def waterProximityFactor (distanceKm flowAcc : ℝ) : ℝ :=
  let prox : ℝ := if distanceKm < 0.5 then 0.9
    else if distanceKm < 1 then 0.7 else if distanceKm < 3 then 0.4
    else if distanceKm < 10 then 0.2 else 0.05
  prox * 0.6 + min 1 (flowAcc / 1000) * 0.4

/-- `FloodModel._land_cover_factor` (lower-cased lookup, default 0.4). -/
def landCoverFactor (landCover : String) (ndvi : ℝ) : ℝ :=
  let base : ℝ := if pyLower landCover = "urban" then 0.9
    else if pyLower landCover = "bare" then 0.7
    else if pyLower landCover = "cropland" then 0.5
    else if pyLower landCover = "grassland" then 0.3
    else if pyLower landCover = "shrubland" then 0.25
    else if pyLower landCover = "forest" then 0.1
    else if pyLower landCover = "wetland" then 0.6
    else if pyLower landCover = "water" then 0.95
    else 0.4
  clip 0 1 (base - max 0 ((ndvi - 0.3) * 0.5))

/-- `FloodModel._drainage_factor`. -/
def drainageFactor (density : ℝ) : ℝ := clip 0 1 (density / 5)

/-- `FloodModel._regional_adjustment`. -/
def regionalAdjust (prob lat lon : ℝ) : ℝ :=
  clip 0 0.99
    (if 20 ≤ lat ∧ lat ≤ 27 ∧ 85 ≤ lon ∧ lon ≤ 95 then prob * 1.3
     else if 28 ≤ lat ∧ lat ≤ 35 ∧ -95 ≤ lon ∧ lon ≤ -88 then prob * 1.15
     else if 51 ≤ lat ∧ lat ≤ 54 ∧ 3 ≤ lon ∧ lon ≤ 8 then prob * 1.1
     else prob)

/-- `FloodModel._estimate_inundation_depth`. -/
def estimateInundationDepth (prob rainfall slope elevation : ℝ) : ℝ :=
  if prob < 0.1 then 0
  else clip 0 10 ((rainfall / 500) * max 0.1 (1 - slope / 45) *
    max 0.2 (1 - elevation / 1000) * prob * 5)

/-- `FloodModel._estimate_return_period`. -/
def estimateReturnPeriod (probability : ℝ) : ℤ :=
  if probability < 0.05 then 500
  else if probability < 0.1 then 200
  else if probability < 0.2 then 100
  else if probability < 0.3 then 50
  else if probability < 0.5 then 25
  else if probability < 0.7 then 10
  else if probability < 0.85 then 5
  else 2

/-- The `factor_names` table of `FloodModel._get_contributing_factors`. -/
def factorName (k : String) : String :=
  if k = "terrain" then "low_elevation_flat_terrain"
  else if k = "rainfall" then "heavy_precipitation"
  else if k = "infiltration" then "poor_soil_drainage"
  else if k = "proximity" then "close_to_water_body"
  else if k = "cover" then "impervious_surface"
  else "high_drainage_concentration"

/-- The `scores` dict of `FloodModel.predict`, in insertion order. -/
def scoresOf (x : Input) : List (String × ℝ) :=
  [("terrain", terrainFactor x.elevation x.slope),
   ("rainfall", rainfallFactor x.rainfallMm24h x.rainfallMmAnnual),
   ("infiltration", infiltrationFactor x.sandPct x.clayPct x.soilMoisture),
   ("proximity", waterProximityFactor x.distRiverKm x.flowAccumulation),
   ("cover", landCoverFactor x.landCover x.ndvi),
   ("drainage", drainageFactor x.drainageDensity)]

/-- The clamped pre-rounding flood probability. -/
def probabilityRaw (x : Input) : ℝ :=
  regionalAdjust
    (clip 0 1 (0.20 * terrainFactor x.elevation x.slope +
      0.25 * rainfallFactor x.rainfallMm24h x.rainfallMmAnnual +
      0.15 * infiltrationFactor x.sandPct x.clayPct x.soilMoisture +
      0.20 * waterProximityFactor x.distRiverKm x.flowAccumulation +
      0.10 * landCoverFactor x.landCover x.ndvi +
      0.10 * drainageFactor x.drainageDensity))
    x.latitude x.longitude

/-- Result record of `FloodModel.predict`. -/
structure Assessment where
  probability : ℝ
  riskLevel : String
  returnPeriodYears : ℤ
  maxInundationDepthM : ℝ
  factorScores : List (String × ℝ)
  contributingFactors : List String

/-- `FloodModel.predict`. -/
def predict (x : Input) : Assessment :=
  { probability := roundTo 3 (probabilityRaw x)
    riskLevel := classifyProbabilityRisk (probabilityRaw x)
    returnPeriodYears := estimateReturnPeriod (probabilityRaw x)
    maxInundationDepthM := roundTo 2 (estimateInundationDepth
      (probabilityRaw x) x.rainfallMm24h x.slope x.elevation)
    factorScores := (scoresOf x).map (fun p => (p.1, roundTo 3 p.2))
    contributingFactors := topFactors 3 factorName (scoresOf x) }

end Flood

/-- A concrete `FloodModel.predict` input (the source-code defaults). -/
def floodWitnessInput : Flood.Input :=
  ⟨0, 0, 100, 5, 30, 800, "Loam", 40, 25, 30, 5, 100, "cropland", 0.5, 2⟩

end

/-! ## Lemmas about the rounding model -/

section RoundLemmas

variable {α : Type} [LinearOrderedField α] [FloorRing α]
variable [DecidableRel ((· < ·) : α → α → Prop)]

theorem floor_le_pyRound (x : α) : ⌊x⌋ ≤ pyRound x := by
  unfold pyRound; split_ifs <;> omega

theorem pyRound_le_floor_add_one (x : α) : pyRound x ≤ ⌊x⌋ + 1 := by
  unfold pyRound; split_ifs <;> omega

theorem pyRound_intCast (n : ℤ) : pyRound (n : α) = n := by
  unfold pyRound
  rw [Int.fract_intCast, Int.floor_intCast, if_pos (by norm_num)]

theorem pyRound_zero : pyRound (0 : α) = 0 := by
  have h := pyRound_intCast (α := α) 0
  simpa using h

theorem pyRound_le (x : α) : (pyRound x : α) ≤ x + 1/2 := by
  have hfl := Int.floor_le x
  have hfr := Int.floor_add_fract x
  unfold pyRound
  split_ifs with h1 h2 h3 <;> push_cast <;> linarith

theorem le_pyRound (x : α) : x - 1/2 ≤ (pyRound x : α) := by
  have hfl := Int.floor_le x
  have hfr := Int.floor_add_fract x
  have hlt := Int.fract_lt_one x
  unfold pyRound
  split_ifs with h1 h2 h3 <;> push_cast <;> linarith

theorem pyRound_mono {x y : α} (h : x ≤ y) : pyRound x ≤ pyRound y := by
  rcases lt_or_eq_of_le (Int.floor_mono h) with hf | hf
  · have h1 := pyRound_le_floor_add_one x
    have h2 := floor_le_pyRound y
    omega
  · have hx := Int.floor_add_fract x
    have hy := Int.floor_add_fract y
    have hcast : ((⌊x⌋ : ℤ) : α) = ((⌊y⌋ : ℤ) : α) := by rw [hf]
    have hfr : Int.fract x ≤ Int.fract y := by linarith
    unfold pyRound
    split_ifs <;> first | omega | linarith

theorem pyRound_le_of_le {x : α} {m : ℤ} (h : x ≤ (m : α)) : pyRound x ≤ m := by
  have := pyRound_mono h
  rwa [pyRound_intCast] at this

theorem le_pyRound_of_le {x : α} {m : ℤ} (h : (m : α) ≤ x) : m ≤ pyRound x := by
  have := pyRound_mono h
  rwa [pyRound_intCast] at this

theorem roundTo_mono (d : ℕ) {x y : α} (h : x ≤ y) :
    roundTo d x ≤ roundTo d y := by
  unfold roundTo
  have hp : (0:α) < 10 ^ d := by positivity
  have hm : x * 10 ^ d ≤ y * 10 ^ d := by
    exact mul_le_mul_of_nonneg_right h hp.le
  have hc : ((pyRound (x * 10 ^ d) : ℤ) : α) ≤ ((pyRound (y * 10 ^ d) : ℤ) : α) := by
    exact_mod_cast pyRound_mono hm
  gcongr

theorem abs_roundTo_sub_le (d : ℕ) (x : α) :
    |roundTo d x - x| ≤ (1/2) / 10 ^ d := by
  have hp : (0:α) < 10 ^ d := by positivity
  have h1 := pyRound_le (x * 10 ^ d)
  have h2 := le_pyRound (x * 10 ^ d)
  have key : roundTo d x - x = ((pyRound (x * 10 ^ d) : α) - x * 10 ^ d) / 10 ^ d := by
    field_simp [roundTo]
    ring
  rw [abs_le, key]
  constructor
  · have hnum : -(1/2 : α) ≤ (pyRound (x * 10 ^ d) : α) - x * 10 ^ d := by linarith
    calc -(1/2 / 10 ^ d : α) = (-(1/2) : α) / 10 ^ d := by ring
      _ ≤ ((pyRound (x * 10 ^ d) : α) - x * 10 ^ d) / 10 ^ d := by gcongr
  · have hnum : (pyRound (x * 10 ^ d) : α) - x * 10 ^ d ≤ 1/2 := by linarith
    gcongr

theorem roundTo_intCast_div (d : ℕ) (n : ℤ) :
    roundTo d ((n : α) / 10 ^ d) = (n : α) / 10 ^ d := by
  have hp : (10:α) ^ d ≠ 0 := by positivity
  unfold roundTo
  rw [div_mul_cancel₀ _ hp, pyRound_intCast]

theorem roundTo_le_of_le (d : ℕ) {x : α} {m : ℤ} (h : x ≤ (m : α) / 10 ^ d) :
    roundTo d x ≤ (m : α) / 10 ^ d := by
  have := roundTo_mono d h
  rwa [roundTo_intCast_div] at this

theorem le_roundTo_of_le (d : ℕ) {x : α} {m : ℤ} (h : (m : α) / 10 ^ d ≤ x) :
    (m : α) / 10 ^ d ≤ roundTo d x := by
  have := roundTo_mono d h
  rwa [roundTo_intCast_div] at this

theorem le_clip {α : Type} [LinearOrder α] (lo hi x : α) : lo ≤ clip lo hi x :=
  le_max_left _ _

theorem clip_le {α : Type} [LinearOrder α] {lo hi : α} (h : lo ≤ hi) (x : α) :
    clip lo hi x ≤ hi :=
  max_le h (min_le_right _ _)

end RoundLemmas


/-! ## Composite risk: claims C4 and C5 -/

theorem Composite.level_spec (s : ℤ) :
    (Composite.level s = "Very Low" ↔ s < 15) ∧
    (Composite.level s = "Low" ↔ 15 ≤ s ∧ s < 30) ∧
    (Composite.level s = "Low-Moderate" ↔ 30 ≤ s ∧ s < 45) ∧
    (Composite.level s = "Moderate" ↔ 45 ≤ s ∧ s < 60) ∧
    (Composite.level s = "High" ↔ 60 ≤ s ∧ s < 75) ∧
    (Composite.level s = "Very High" ↔ 75 ≤ s ∧ s < 90) ∧
    (Composite.level s = "Extreme" ↔ 90 ≤ s) := by
  unfold Composite.level
  split_ifs <;> simp_all <;> omega

theorem Composite.score_le_bounds {l f q w : ℚ}
    (hl0 : 0 ≤ l) (hl1 : l ≤ 1) (hf0 : 0 ≤ f) (hf1 : f ≤ 1)
    (hq0 : 0 ≤ q) (hq1 : q ≤ 1) (hw0 : 0 ≤ w) (hw1 : w ≤ 1) :
    0 ≤ Composite.score l f q w ∧ Composite.score l f q w ≤ 100 := by
  have hm0 : (0:ℚ) ≤ max (max (max l f) q) w := le_trans hw0 (le_max_right _ _)
  have hm1 : max (max (max l f) q) w ≤ 1 :=
    max_le (max_le (max_le hl1 hf1) hq1) hw1
  unfold Composite.score Composite.composite
  constructor
  · apply le_pyRound_of_le
    push_cast
    nlinarith
  · apply pyRound_le_of_le
    push_cast
    nlinarith

/-- Claim C4: for four hazard inputs each in `[0,1]`, the composite risk score
equals `round(100 * (0.6 * max + 0.4 * (0.30*l + 0.30*f + 0.20*q + 0.20*w)))`,
is an integer in `[0,100]`, and the level is drawn from the 7-band table
(Very Low < 15, Low < 30, Low-Moderate < 45, Moderate < 60, High < 75,
Very High < 90, Extreme ≥ 90). -/
theorem composite_risk_score_formula
    (l f q w : ℚ) (hl0 : 0 ≤ l) (hl1 : l ≤ 1) (hf0 : 0 ≤ f) (hf1 : f ≤ 1)
    (hq0 : 0 ≤ q) (hq1 : q ≤ 1) (hw0 : 0 ≤ w) (hw1 : w ≤ 1) :
    Composite.ScoreSpec l f q w := by
  unfold Composite.ScoreSpec
  have hb := Composite.score_le_bounds hl0 hl1 hf0 hf1 hq0 hq1 hw0 hw1
  have hs := Composite.level_spec (Composite.score l f q w)
  exact ⟨congrArg pyRound (by unfold Composite.composite; ring), hb.1, hb.2, rfl,
    hs.1, hs.2.1, hs.2.2.1, hs.2.2.2.1, hs.2.2.2.2.1, hs.2.2.2.2.2.1,
    hs.2.2.2.2.2.2⟩

/-- Closed witness for claim C4 at the concrete hazard vector
(0.5, 0.2, 0.1, 0.3). -/
theorem composite_risk_score_formula_witness :
    ((0:ℚ) ≤ 1/2 ∧ (1/2:ℚ) ≤ 1 ∧ (0:ℚ) ≤ 1/5 ∧ (1/5:ℚ) ≤ 1 ∧
      (0:ℚ) ≤ 1/10 ∧ (1/10:ℚ) ≤ 1 ∧ (0:ℚ) ≤ 3/10 ∧ (3/10:ℚ) ≤ 1) ∧
    Composite.ScoreSpec (1/2) (1/5) (1/10) (3/10) :=
  ⟨by norm_num,
    composite_risk_score_formula (1/2) (1/5) (1/10) (3/10)
      (by norm_num) (by norm_num) (by norm_num) (by norm_num)
      (by norm_num) (by norm_num) (by norm_num) (by norm_num)⟩

theorem Composite.composite_mul_hundred_mono {l f q w l' f' q' w' : ℚ}
    (h : Composite.composite l f q w ≤ Composite.composite l' f' q' w') :
    Composite.score l f q w ≤ Composite.score l' f' q' w' := by
  unfold Composite.score
  exact pyRound_mono (mul_le_mul_of_nonneg_right h (by norm_num))

/-- Claim C5: the composite risk score is monotone non-decreasing in each
individual hazard input (landslide, flood, liquefaction, wildfire) when the
other three inputs are held fixed and all inputs stay in `[0,1]`. -/
theorem composite_score_monotone_each :
    (∀ l l' f q w : ℚ, 0 ≤ l → l' ≤ 1 → 0 ≤ f → f ≤ 1 → 0 ≤ q → q ≤ 1 →
      0 ≤ w → w ≤ 1 → l ≤ l' →
      Composite.score l f q w ≤ Composite.score l' f q w) ∧
    (∀ l f f' q w : ℚ, 0 ≤ l → l ≤ 1 → 0 ≤ f → f' ≤ 1 → 0 ≤ q → q ≤ 1 →
      0 ≤ w → w ≤ 1 → f ≤ f' →
      Composite.score l f q w ≤ Composite.score l f' q w) ∧
    (∀ l f q q' w : ℚ, 0 ≤ l → l ≤ 1 → 0 ≤ f → f ≤ 1 → 0 ≤ q → q' ≤ 1 →
      0 ≤ w → w ≤ 1 → q ≤ q' →
      Composite.score l f q w ≤ Composite.score l f q' w) ∧
    (∀ l f q w w' : ℚ, 0 ≤ l → l ≤ 1 → 0 ≤ f → f ≤ 1 → 0 ≤ q → q ≤ 1 →
      0 ≤ w → w' ≤ 1 → w ≤ w' →
      Composite.score l f q w ≤ Composite.score l f q w') := by
  refine ⟨?_, ?_, ?_, ?_⟩ <;>
    (intro a b c d e h1 h2 h3 h4 h5 h6 h7 h8 h9;
     apply Composite.composite_mul_hundred_mono;
     simp only [Composite.composite];
     gcongr)

/-- Closed witness for claim C5: each of the four monotonicity statements
instantiated at a concrete pair of inputs. -/
theorem composite_score_monotone_each_witness :
    ((0:ℚ) ≤ 1/10 ∧ (1/10:ℚ) ≤ 9/10 ∧ (9/10:ℚ) ≤ 1) ∧
    Composite.score (1/10) (1/2) (1/2) (1/2) ≤
      Composite.score (9/10) (1/2) (1/2) (1/2) ∧
    Composite.score (1/2) (1/10) (1/2) (1/2) ≤
      Composite.score (1/2) (9/10) (1/2) (1/2) ∧
    Composite.score (1/2) (1/2) (1/10) (1/2) ≤
      Composite.score (1/2) (1/2) (9/10) (1/2) ∧
    Composite.score (1/2) (1/2) (1/2) (1/10) ≤
      Composite.score (1/2) (1/2) (1/2) (9/10) :=
  ⟨by norm_num,
    composite_score_monotone_each.1 _ _ _ _ _ (by norm_num) (by norm_num)
      (by norm_num) (by norm_num) (by norm_num) (by norm_num) (by norm_num)
      (by norm_num) (by norm_num),
    composite_score_monotone_each.2.1 _ _ _ _ _ (by norm_num) (by norm_num)
      (by norm_num) (by norm_num) (by norm_num) (by norm_num) (by norm_num)
      (by norm_num) (by norm_num),
    composite_score_monotone_each.2.2.1 _ _ _ _ _ (by norm_num) (by norm_num)
      (by norm_num) (by norm_num) (by norm_num) (by norm_num) (by norm_num)
      (by norm_num) (by norm_num),
    composite_score_monotone_each.2.2.2 _ _ _ _ _ (by norm_num) (by norm_num)
      (by norm_num) (by norm_num) (by norm_num) (by norm_num) (by norm_num)
      (by norm_num) (by norm_num)⟩

/-! ## Cache layer: claims C1 and C10 -/

theorem CacheService.rawGet_set_self {K V : Type} [DecidableEq K]
    (c : CacheService K V) (now : ℚ) (k : K) (v : Option V)
    (h : 0 < c.ttl) : (c.set now k v).rawGet now k = v := by
  unfold CacheService.set CacheService.rawGet
  rw [List.find?_cons_of_pos _ (by simp)]
  simp only []
  rw [if_pos (by simpa using h)]

theorem CacheService.rawGet_set_none {K V : Type} [DecidableEq K]
    (c : CacheService K V) (now : ℚ) (k : K) :
    (c.set now k none).rawGet now k = none := by
  unfold CacheService.set CacheService.rawGet
  rw [List.find?_cons_of_pos _ (by simp)]
  simp [ite_self]

theorem assessAllRisks_fresh {V : Type} (f : RiskParams → V)
    (c : CacheService CacheKey V) (now : ℚ) (p : RiskParams)
    (h : c.rawGet now (riskCacheKey p) = none) :
    (assessAllRisks f c now p).1 = f p ∧
    (assessAllRisks f c now p).2 =
      CacheService.set { c with misses := c.misses + 1 } now
        (riskCacheKey p) (some (f p)) := by
  unfold assessAllRisks CacheService.get
  rw [h]
  exact ⟨rfl, rfl⟩

theorem assessAllRisks_hit {V : Type} (f : RiskParams → V)
    (c : CacheService CacheKey V) (now : ℚ) (p : RiskParams) (v : V)
    (h : c.rawGet now (riskCacheKey p) = some v) :
    (assessAllRisks f c now p).1 = v ∧
    (assessAllRisks f c now p).2 = { c with hits := c.hits + 1 } := by
  unfold assessAllRisks CacheService.get
  rw [h]
  exact ⟨rfl, rfl⟩

/-- Claim C1 (amended): the `assess_all_risks` cache key is built from the
rounded coordinates only, so two calls whose rounded latitude/longitude agree
share the cache key even when elevation, slope, soil, land cover or NDVI
differ, and the second call is served the first call's cached result. -/
theorem assess_all_risks_cache_key_only_coordinates
    {V : Type} (f : RiskParams → V) (c : CacheService CacheKey V)
    (now : ℚ) (p₁ p₂ : RiskParams)
    (hlat : roundTo 3 p₁.latitude = roundTo 3 p₂.latitude)
    (hlon : roundTo 3 p₁.longitude = roundTo 3 p₂.longitude)
    (httl : 0 < c.ttl) :
    riskCacheKey p₁ = riskCacheKey p₂ ∧
    (assessAllRisks f (assessAllRisks f c now p₁).2 now p₂).1 =
      (assessAllRisks f c now p₁).1 := by
  have hkey : riskCacheKey p₁ = riskCacheKey p₂ := by
    unfold riskCacheKey; rw [hlat, hlon]
  refine ⟨hkey, ?_⟩
  rcases hr : c.rawGet now (riskCacheKey p₁) with _ | v
  · have h1 := assessAllRisks_fresh f c now p₁ hr
    have h2 :
        ((assessAllRisks f c now p₁).2).rawGet now (riskCacheKey p₂) =
          some (f p₁) := by
      rw [h1.2, ← hkey]
      exact CacheService.rawGet_set_self _ now _ _ (by simpa using httl)
    rw [(assessAllRisks_hit f _ now p₂ (f p₁) h2).1, h1.1]
  · have h1 := assessAllRisks_hit f c now p₁ v hr
    have h2 :
        ((assessAllRisks f c now p₁).2).rawGet now (riskCacheKey p₂) =
          some v := by
      rw [h1.2, ← hkey]
      exact hr
    rw [(assessAllRisks_hit f _ now p₂ v h2).1, h1.1]

/-- Closed witness for claim C1 (amended) at two concrete parameter vectors
differing only in elevation. -/
theorem assess_all_risks_cache_key_only_coordinates_witness :
    (roundTo 3 riskParamsElev100.latitude =
        roundTo 3 riskParamsElev200.latitude ∧
      roundTo 3 riskParamsElev100.longitude =
        roundTo 3 riskParamsElev200.longitude ∧
      (0:ℚ) < emptyRiskCache.ttl) ∧
    riskCacheKey riskParamsElev100 = riskCacheKey riskParamsElev200 ∧
    (assessAllRisks RiskParams.elevation
        (assessAllRisks RiskParams.elevation emptyRiskCache 0
            riskParamsElev100).2 0 riskParamsElev200).1 =
      (assessAllRisks RiskParams.elevation emptyRiskCache 0
          riskParamsElev100).1 :=
  ⟨⟨rfl, rfl, by norm_num [emptyRiskCache]⟩,
    assess_all_risks_cache_key_only_coordinates RiskParams.elevation
      emptyRiskCache 0 riskParamsElev100 riskParamsElev200 rfl rfl
      (by norm_num [emptyRiskCache])⟩

/-- Counterexample to claim C1 as stated: two `assess_all_risks` calls with
identical rounded coordinates but different elevation produce the same cache
key (not a different one), and the second call is served the first call's
cached result (100, the first elevation) instead of a fresh computation
(which would yield 200). -/
theorem assess_all_risks_cache_key_cex :
    riskCacheKey riskParamsElev100 = riskCacheKey riskParamsElev200 ∧
    (assessAllRisks RiskParams.elevation
        (assessAllRisks RiskParams.elevation emptyRiskCache 0
            riskParamsElev100).2 0 riskParamsElev200).1 = 100 ∧
    RiskParams.elevation riskParamsElev200 = 200 := by
  have h1 := assessAllRisks_fresh RiskParams.elevation emptyRiskCache 0
    riskParamsElev100 rfl
  have h2 :
      ((assessAllRisks RiskParams.elevation emptyRiskCache 0
          riskParamsElev100).2).rawGet 0 (riskCacheKey riskParamsElev200) =
        some 100 := by
    rw [h1.2]
    exact CacheService.rawGet_set_self _ 0 _ _ (by norm_num [emptyRiskCache])
  refine ⟨rfl, ?_, rfl⟩
  rw [(assessAllRisks_hit RiskParams.elevation _ 0 riskParamsElev200 100 h2).1]

/-- Claim C10: after `set(k, None)`, a `get(k)` returns `None` and counts a
miss (the hit counter is unchanged), so a stored `None` is indistinguishable
from an absent entry at the public interface and the reported hit rate does
not increase. -/
theorem cache_stored_none_reads_as_miss {K V : Type} [DecidableEq K]
    (c : CacheService K V) (now : ℚ) (k : K) :
    ((c.set now k none).get now k).1 = none ∧
    ((c.set now k none).get now k).2.misses = c.misses + 1 ∧
    ((c.set now k none).get now k).2.hits = c.hits ∧
    ((c.set now k none).get now k).2.stats.hitRate ≤ c.stats.hitRate := by
  have hraw := CacheService.rawGet_set_none c now k
  unfold CacheService.get
  rw [hraw]
  refine ⟨rfl, rfl, rfl, ?_⟩
  show roundTo 1 _ ≤ roundTo 1 _
  apply roundTo_mono
  apply mul_le_mul_of_nonneg_right ?_ (by norm_num)
  have hb : (0:ℚ) < max 1 ((c.hits : ℚ) + (c.misses : ℚ)) :=
    lt_of_lt_of_le one_pos (le_max_left _ _)
  apply div_le_div_of_nonneg_left (by positivity) hb
  simp only [CacheService.set]
  push_cast
  exact max_le_max le_rfl (by linarith)

/-! ## Alert lifecycle: claims C2 and C6 -/

theorem find_alert_id_unique {l : List Alert}
    (h : (l.map Alert.id).Nodup) {a : Alert} (ha : a ∈ l) :
    l.find? (fun b => decide (b.id = a.id)) = some a := by
  induction l with
  | nil => cases ha
  | cons x xs ih =>
    have h' := h
    rw [List.map_cons, List.nodup_cons] at h'
    rcases List.mem_cons.mp ha with rfl | hmem
    · simp [List.find?_cons]
    · have hx : ¬(x.id = a.id) := by
        intro he
        exact h'.1 (he ▸ List.mem_map_of_mem Alert.id hmem)
      have hd : (decide (x.id = a.id)) = false := by simpa using hx
      rw [List.find?_cons, hd]
      exact ih h'.2 hmem

theorem alert_eq_of_id_eq {l : List Alert}
    (h : (l.map Alert.id).Nodup) {a b : Alert}
    (ha : a ∈ l) (hb : b ∈ l) (hid : a.id = b.id) : a = b := by
  have h1 := find_alert_id_unique h ha
  have h2 := find_alert_id_unique h hb
  rw [← hid] at h2
  rw [h1] at h2
  exact Option.some_injective _ h2

theorem AlertService.lookup_eq_of_mem {s : AlertService}
    (h : (s.store.map Alert.id).Nodup) {a : Alert} (ha : a ∈ s.store) :
    s.lookup a.id = some a :=
  find_alert_id_unique h ha

theorem setInactive_map_id (st : List Alert) (i : ℕ) :
    (setInactive st i).map Alert.id = st.map Alert.id := by
  unfold setInactive
  rw [List.map_map]
  apply List.map_congr_left
  intro a _
  by_cases hc : a.id = i <;> simp [hc]

theorem setInactiveFold_eq (L : List ℕ) (st : List Alert) :
    L.foldl (fun acc i => setInactive acc i) st =
      st.map (fun a => if a.id ∈ L then { a with isActive := false } else a) := by
  induction L generalizing st with
  | nil => simp
  | cons j L' ih =>
    rw [List.foldl_cons, ih]
    unfold setInactive
    rw [List.map_map]
    apply List.map_congr_left
    intro a _
    by_cases h1 : a.id = j
    · by_cases h2 : a.id ∈ L' <;> simp [h1, h2]
    · by_cases h2 : a.id ∈ L' <;> simp [h1, h2, List.mem_cons]

theorem expireAlerts_active (s : AlertService) (now : ℚ) :
    (s.expireAlerts now).active =
      s.active.filter (fun i => !(expiredAt s now i)) := rfl

theorem expireAlerts_store (s : AlertService) (now : ℚ) :
    (s.expireAlerts now).store =
      s.store.map (fun a =>
        if a.id ∈ s.active.filter (fun i => expiredAt s now i)
        then { a with isActive := false } else a) :=
  setInactiveFold_eq _ _

theorem expireAlerts_map_id (s : AlertService) (now : ℚ) :
    (s.expireAlerts now).store.map Alert.id = s.store.map Alert.id := by
  rw [expireAlerts_store, List.map_map]
  apply List.map_congr_left
  intro a _
  show Alert.id (if a.id ∈ s.active.filter (fun i => expiredAt s now i)
      then { a with isActive := false } else a) = Alert.id a
  split <;> rfl

theorem expiredAt_false_of_mem {s : AlertService}
    (h1 : (s.store.map Alert.id).Nodup) {a : Alert} (ha : a ∈ s.store)
    {now : ℚ} (ht : now ≤ a.expiresAt) : expiredAt s now a.id = false := by
  unfold expiredAt
  rw [AlertService.lookup_eq_of_mem h1 ha]
  simpa using not_lt.mpr ht

theorem expiredAt_time_of_false {s : AlertService}
    (h1 : (s.store.map Alert.id).Nodup) {a : Alert} (ha : a ∈ s.store)
    {now : ℚ} (hf : expiredAt s now a.id = false) : now ≤ a.expiresAt := by
  unfold expiredAt at hf
  rw [AlertService.lookup_eq_of_mem h1 ha] at hf
  exact not_lt.mp (by simpa using hf)

theorem wf_expireAlerts {s : AlertService} (h : s.Wf) (now : ℚ) :
    (s.expireAlerts now).Wf := by
  obtain ⟨h1, h2, h3, h4⟩ := h
  refine ⟨?_, ?_, ?_, ?_⟩
  · rw [expireAlerts_map_id]; exact h1
  · intro a' ha'
    rw [expireAlerts_store] at ha'
    obtain ⟨a, ha, rfl⟩ := List.mem_map.mp ha'
    have := h2 a ha
    split <;> simpa using this
  · exact h3.filter _
  · intro i
    rw [expireAlerts_active, expireAlerts_store, List.mem_filter]
    constructor
    · rintro ⟨hmem, hexp⟩
      obtain ⟨a, ha, hid, hact⟩ := (h4 i).mp hmem
      refine ⟨a, List.mem_map.mpr ⟨a, ha, ?_⟩, hid, hact⟩
      rw [if_neg]
      intro hc
      rw [List.mem_filter] at hc
      rw [hid] at hc
      simp only [Bool.not_eq_true'] at hexp
      rw [hexp] at hc
      exact Bool.false_ne_true hc.2
    · rintro ⟨a', ha', hid, hact⟩
      obtain ⟨a, ha, rfl⟩ := List.mem_map.mp ha'
      by_cases hc : a.id ∈ s.active.filter (fun i => expiredAt s now i)
      · rw [if_pos hc] at hid hact
        exact absurd hact (by simp)
      · rw [if_neg hc] at hid hact
        have hmem : i ∈ s.active := (h4 i).mpr ⟨a, ha, hid, hact⟩
        refine ⟨hmem, ?_⟩
        rw [List.mem_filter, hid] at hc
        simp only [Bool.not_eq_true']
        rcases Bool.eq_false_or_eq_true (expiredAt s now i) with hb | hb
        · exact absurd ⟨hmem, hb⟩ hc
        · exact hb

theorem expire_active_iff {s : AlertService} (h : s.Wf) (now : ℚ) (i : ℕ) :
    i ∈ (s.expireAlerts now).active ↔
      ∃ a, a ∈ (s.expireAlerts now).store ∧ a.id = i ∧ a.isActive = true ∧
        now ≤ a.expiresAt := by
  obtain ⟨h1, h2, h3, h4⟩ := h
  rw [expireAlerts_active, expireAlerts_store, List.mem_filter]
  constructor
  · rintro ⟨hmem, hexp⟩
    simp only [Bool.not_eq_true'] at hexp
    obtain ⟨a, ha, hid, hact⟩ := (h4 i).mp hmem
    have htime : now ≤ a.expiresAt :=
      expiredAt_time_of_false h1 ha (hid ▸ hexp)
    refine ⟨a, List.mem_map.mpr ⟨a, ha, ?_⟩, hid, hact, htime⟩
    rw [if_neg]
    intro hc
    rw [List.mem_filter, hid, hexp] at hc
    exact Bool.false_ne_true hc.2
  · rintro ⟨a', ha', hid, hact, htime⟩
    obtain ⟨a, ha, rfl⟩ := List.mem_map.mp ha'
    by_cases hc : a.id ∈ s.active.filter (fun i => expiredAt s now i)
    · rw [if_pos hc] at hact
      exact absurd hact (by simp)
    · rw [if_neg hc] at hid hact htime
      have hmem : i ∈ s.active := (h4 i).mpr ⟨a, ha, hid, hact⟩
      refine ⟨hmem, ?_⟩
      simp only [Bool.not_eq_true']
      rw [← hid]
      exact expiredAt_false_of_mem h1 ha htime

theorem wf_createAlert {s : AlertService} (h : s.Wf) (now ttl : ℚ)
    (kind sev title descr : String) (lat lon rad : Option ℚ)
    (ok : String → Bool) :
    ((s.createAlert now ttl kind sev title descr lat lon rad ok).2.2).Wf := by
  obtain ⟨h1, h2, h3, h4⟩ := h
  have hfresh : s.counter + 1 ∉ s.store.map Alert.id := by
    intro hc
    obtain ⟨a, ha, hid⟩ := List.mem_map.mp hc
    have := h2 a ha
    omega
  unfold AlertService.Wf AlertService.createAlert
  dsimp only
  refine ⟨?_, ?_, ?_, ?_⟩
  · rw [List.map_cons, List.nodup_cons]
    exact ⟨hfresh, h1⟩
  · intro a ha
    rcases List.mem_cons.mp ha with rfl | ha'
    · exact le_rfl
    · exact le_trans (h2 a ha') (by omega)
  · rw [List.nodup_append]
    refine ⟨h3, List.nodup_singleton _, ?_⟩
    intro i hi
    simp only [List.mem_singleton]
    intro hc
    obtain ⟨a, ha, hid, _⟩ := (h4 i).mp hi
    exact hfresh (hc ▸ hid ▸ List.mem_map_of_mem Alert.id ha)
  · intro i
    rw [List.mem_append, List.mem_singleton]
    constructor
    · rintro (hi | rfl)
      · obtain ⟨a, ha, hid, hact⟩ := (h4 i).mp hi
        exact ⟨a, List.mem_cons_of_mem _ ha, hid, hact⟩
      · exact ⟨_, List.mem_cons_self _ _, rfl, rfl⟩
    · rintro ⟨a, ha, hid, hact⟩
      rcases List.mem_cons.mp ha with rfl | ha'
      · right; exact hid.symm
      · left; exact (h4 i).mpr ⟨a, ha', hid, hact⟩

theorem wf_dismissAlert {s : AlertService} (h : s.Wf) (i : ℕ) :
    ((s.dismissAlert i).2).Wf := by
  obtain ⟨h1, h2, h3, h4⟩ := h
  unfold AlertService.dismissAlert
  split
  case isTrue hmem =>
    unfold AlertService.Wf
    dsimp only
    refine ⟨?_, ?_, ?_, ?_⟩
    · rw [setInactive_map_id]
      exact h1
    · intro a' ha'
      obtain ⟨a, ha, rfl⟩ := List.mem_map.mp ha'
      have := h2 a ha
      show Alert.id (if a.id = i then { a with isActive := false } else a) ≤ _
      split <;> simpa using this
    · exact h3.erase i
    · intro j
      rw [h3.mem_erase_iff]
      constructor
      · rintro ⟨hne, hj⟩
        obtain ⟨a, ha, hid, hact⟩ := (h4 j).mp hj
        refine ⟨if a.id = i then { a with isActive := false } else a,
          List.mem_map_of_mem _ ha, ?_, ?_⟩
        · rw [if_neg (by rw [hid]; exact hne)]
          exact hid
        · rw [if_neg (by rw [hid]; exact hne)]
          exact hact
      · rintro ⟨a', ha', hid, hact⟩
        obtain ⟨a, ha, rfl⟩ := List.mem_map.mp ha'
        by_cases hc : a.id = i
        · rw [if_pos hc] at hact
          exact absurd hact (by simp)
        · rw [if_neg hc] at hid hact
          exact ⟨hid ▸ hc, (h4 j).mpr ⟨a, ha, hid, hact⟩⟩
  case isFalse => exact ⟨h1, h2, h3, h4⟩

theorem wf_applyAlertOp {s : AlertService} (h : s.Wf) (op : AlertOp) :
    (applyAlertOp s op).Wf := by
  cases op with
  | create now ttl kind sev title descr lat lon rad =>
      exact wf_createAlert h now ttl kind sev title descr lat lon rad _
  | dismiss i => exact wf_dismissAlert h i
  | readActive now => exact wf_expireAlerts h now
  | readStats now => exact wf_expireAlerts h now

theorem wf_runAlertOps {s : AlertService} (h : s.Wf) (ops : List AlertOp) :
    (runAlertOps s ops).Wf := by
  induction ops generalizing s with
  | nil => exact h
  | cons op rest ih => exact ih (wf_applyAlertOp h op)

theorem alertInit_wf : alertInit.Wf := by
  refine ⟨List.nodup_nil, ?_, List.nodup_nil, ?_⟩
  · intro a ha; cases ha
  · intro i
    constructor
    · intro hi; cases hi
    · rintro ⟨a, ha, _⟩; cases ha

theorem inactive_not_active {s : AlertService} (h : s.Wf) {i : ℕ}
    (hi : s.InactiveRecord i) : i ∉ s.active := by
  obtain ⟨h1, _, _, h4⟩ := h
  obtain ⟨a, ha, hid, hfl⟩ := hi
  intro hmem
  obtain ⟨b, hb, hbid, hbact⟩ := (h4 i).mp hmem
  have hab : a = b := alert_eq_of_id_eq h1 ha hb (hid.trans hbid.symm)
  rw [hab, hbact] at hfl
  simp at hfl

theorem inactive_expireAlerts {s : AlertService} {i : ℕ}
    (hi : s.InactiveRecord i) (now : ℚ) :
    (s.expireAlerts now).InactiveRecord i := by
  obtain ⟨a, ha, hid, hfl⟩ := hi
  refine ⟨if a.id ∈ s.active.filter (fun j => expiredAt s now j)
      then { a with isActive := false } else a, ?_, ?_, ?_⟩
  · rw [expireAlerts_store]
    exact List.mem_map_of_mem _ ha
  · split <;> simpa using hid
  · split <;> simp [hfl]

theorem inactive_applyAlertOp {s : AlertService} (op : AlertOp) {i : ℕ}
    (hi : s.InactiveRecord i) : (applyAlertOp s op).InactiveRecord i := by
  cases op with
  | create now ttl kind sev title descr lat lon rad =>
      obtain ⟨a, ha, hid, hfl⟩ := hi
      exact ⟨a, List.mem_cons_of_mem _ ha, hid, hfl⟩
  | dismiss j =>
      obtain ⟨a, ha, hid, hfl⟩ := hi
      show ((s.dismissAlert j).2).InactiveRecord i
      unfold AlertService.dismissAlert
      split
      · dsimp only
        refine ⟨if a.id = j then { a with isActive := false } else a,
          List.mem_map_of_mem _ ha, ?_, ?_⟩
        · split <;> simpa using hid
        · split <;> simp [hfl]
      · exact ⟨a, ha, hid, hfl⟩
  | readActive now => exact inactive_expireAlerts hi now
  | readStats now => exact inactive_expireAlerts hi now

theorem inactive_runAlertOps {s : AlertService} (more : List AlertOp) {i : ℕ}
    (hi : s.InactiveRecord i) : (runAlertOps s more).InactiveRecord i := by
  induction more generalizing s with
  | nil => exact hi
  | cons op rest ih => exact ih (inactive_applyAlertOp op hi)

/-- Claim C6 (amended): after any sequence of create/dismiss/read operations,
a read at instant `now` (get_active_alerts or stats, which expire lazily)
leaves an alert in the active index iff its active flag is true and
`now ≤ expires_at` — the code only drops an alert once its expiry instant is
strictly in the past, so a read exactly at the expiry instant still serves
the alert; and once an alert record has been deactivated (by dismissal or
expiry) it is never re-activated nor re-added to the active index by any
further operations. -/
theorem alert_active_index_iff_expiry :
    (∀ (ops : List AlertOp) (now : ℚ) (i : ℕ),
      i ∈ (runAlertOps alertInit (ops ++ [AlertOp.readStats now])).active ↔
        ∃ a, a ∈ (runAlertOps alertInit (ops ++ [AlertOp.readStats now])).store ∧
          a.id = i ∧ a.isActive = true ∧ now ≤ a.expiresAt) ∧
    (∀ (ops more : List AlertOp) (i : ℕ),
      (runAlertOps alertInit ops).InactiveRecord i →
        (runAlertOps alertInit (ops ++ more)).InactiveRecord i ∧
          i ∉ (runAlertOps alertInit (ops ++ more)).active) := by
  constructor
  · intro ops now i
    have hwf := wf_runAlertOps alertInit_wf ops
    have hrw : runAlertOps alertInit (ops ++ [AlertOp.readStats now]) =
        (runAlertOps alertInit ops).expireAlerts now := by
      unfold runAlertOps
      rw [List.foldl_append]
      rfl
    rw [hrw]
    exact expire_active_iff hwf now i
  · intro ops more i hi
    have hwf := wf_runAlertOps alertInit_wf ops
    have h2 := inactive_runAlertOps more hi
    have hrw : runAlertOps alertInit (ops ++ more) =
        runAlertOps (runAlertOps alertInit ops) more := by
      unfold runAlertOps
      rw [List.foldl_append]
    rw [hrw]
    exact ⟨h2, inactive_not_active (wf_runAlertOps hwf more) h2⟩

/-- Counterexample to the strict-inequality reading of claim C6: an alert
created at instant 0 with a TTL of 10 is still present in the active index
when read exactly at instant 10, its active flag is still true and its
expiry instant equals the read instant — yet `now < expires_at` is false,
because `_expire_alerts` only drops alerts with `expires_at < now`. -/
theorem alert_active_strict_expiry_cex :
    1 ∈ (runAlertOps alertInit [AlertOp.create 0 10 "flood" "warning" "t" ""
        none none none, AlertOp.readStats 10]).active ∧
    ((runAlertOps alertInit [AlertOp.create 0 10 "flood" "warning" "t" ""
        none none none, AlertOp.readStats 10]).lookup 1).map Alert.isActive =
      some true ∧
    ((runAlertOps alertInit [AlertOp.create 0 10 "flood" "warning" "t" ""
        none none none, AlertOp.readStats 10]).lookup 1).map Alert.expiresAt =
      some 10 ∧
    ¬((10:ℚ) < 10) := by
  norm_num [runAlertOps, applyAlertOp, AlertService.createAlert,
    AlertService.alertStats, AlertService.expireAlerts, expiredAt,
    AlertService.lookup, alertInit, setInactive, List.find?, List.filter]

/-- Closed witness for claim C6 (amended): the active-index characterization
read at instant 5, and dismissal-is-terminal across a later create. -/
theorem alert_active_index_iff_expiry_witness :
    (1 ∈ (runAlertOps alertInit ([AlertOp.create 0 10 "flood" "warning" "t" ""
          none none none] ++ [AlertOp.readStats 5])).active ↔
      ∃ a, a ∈ (runAlertOps alertInit ([AlertOp.create 0 10 "flood" "warning"
          "t" "" none none none] ++ [AlertOp.readStats 5])).store ∧
        a.id = 1 ∧ a.isActive = true ∧ (5:ℚ) ≤ a.expiresAt) ∧
    ((runAlertOps alertInit [AlertOp.create 0 10 "flood" "warning" "t" ""
        none none none, AlertOp.dismiss 1]).InactiveRecord 1 ∧
      (runAlertOps alertInit ([AlertOp.create 0 10 "flood" "warning" "t" ""
          none none none, AlertOp.dismiss 1] ++
          [AlertOp.create 3 10 "fire" "watch" "u" ""
            none none none])).InactiveRecord 1 ∧
      1 ∉ (runAlertOps alertInit ([AlertOp.create 0 10 "flood" "warning" "t" ""
          none none none, AlertOp.dismiss 1] ++
          [AlertOp.create 3 10 "fire" "watch" "u" ""
            none none none])).active) := by
  have hin : (runAlertOps alertInit [AlertOp.create 0 10 "flood" "warning" "t"
      "" none none none, AlertOp.dismiss 1]).InactiveRecord 1 := by
    refine ⟨⟨1, "flood", "warning", "t", "", none, none, none, false, 0,
      0 + 10⟩, ?_, rfl, rfl⟩
    norm_num [runAlertOps, applyAlertOp, AlertService.createAlert,
      AlertService.dismissAlert, setInactive, alertInit]
  refine ⟨alert_active_index_iff_expiry.1 _ 5 1, hin, ?_, ?_⟩
  · exact (alert_active_index_iff_expiry.2 _ _ 1 hin).1
  · exact (alert_active_index_iff_expiry.2 _ _ 1 hin).2

theorem broadcastLoop_eq_filter (l : List String) (ok : String → Bool) :
    broadcastLoop l ok = l.filter ok := by
  induction l with
  | nil => rfl
  | cons c rest ih =>
    unfold broadcastLoop
    rw [List.filter_cons]
    split <;> simp_all

/-- Claim C2 (amended): `create_alert` schedules a broadcast over a snapshot
of the current subscriber set; a raising callback has its exception caught
and logged but is NOT removed from the subscription set, delivery still
reaches every other subscriber, and `create_alert` returns the created
alert.  (The broadcast is scheduled with `asyncio.ensure_future`; its body is
modelled as running once, as written.) -/
theorem create_alert_broadcast_spec :
    ∀ (s : AlertService) (now ttl : ℚ) (kind sev title descr : String)
      (lat lon rad : Option ℚ) (ok : String → Bool),
      ((s.createAlert now ttl kind sev title descr lat lon rad
          ok).2.2).subscribers = s.subscribers ∧
      (s.createAlert now ttl kind sev title descr lat lon rad ok).2.1 =
        s.subscribers.filter ok ∧
      (s.createAlert now ttl kind sev title descr lat lon rad ok).1 =
        { id := s.counter + 1, kind := kind, severity := sev, title := title,
          description := descr, latitude := lat, longitude := lon,
          radiusKm := rad, isActive := true, createdAt := now,
          expiresAt := now + ttl } := by
  intro s now ttl kind sev title descr lat lon rad ok
  refine ⟨rfl, ?_, rfl⟩
  exact broadcastLoop_eq_filter s.subscribers ok

/-- Counterexample to claim C2 as stated: with subscribers "a" and "b" where
"a"'s callback raises, the broadcast delivers to "b" and `create_alert`
returns the alert, but the failing subscriber "a" is still in the
subscription set afterwards — it is not dropped. -/
theorem create_alert_failed_subscriber_kept_cex :
    ((twoSubsService.createAlert 0 24 "flood" "warning" "t" "" none none none
        failsOnA).2.2).subscribers = ["a", "b"] ∧
    (twoSubsService.createAlert 0 24 "flood" "warning" "t" "" none none none
        failsOnA).2.1 = ["b"] ∧
    (twoSubsService.createAlert 0 24 "flood" "warning" "t" "" none none none
        failsOnA).1.id = 1 ∧
    (twoSubsService.createAlert 0 24 "flood" "warning" "t" "" none none none
        failsOnA).1.isActive = true ∧
    (["a", "b"] : List String) ≠ ["b"] := by
  refine ⟨rfl, ?_, rfl, rfl, by decide⟩
  decide

/-! ## Landslide model: claim C3 -/

theorem classifyProbabilityRisk_spec (p : ℝ) :
    (classifyProbabilityRisk p = "Very Low" ↔ p < 0.1) ∧
    (classifyProbabilityRisk p = "Low" ↔ 0.1 ≤ p ∧ p < 0.25) ∧
    (classifyProbabilityRisk p = "Moderate" ↔ 0.25 ≤ p ∧ p < 0.45) ∧
    (classifyProbabilityRisk p = "High" ↔ 0.45 ≤ p ∧ p < 0.65) ∧
    (classifyProbabilityRisk p = "Very High" ↔ 0.65 ≤ p ∧ p < 0.8) ∧
    (classifyProbabilityRisk p = "Extreme" ↔ 0.8 ≤ p) := by
  unfold classifyProbabilityRisk
  refine ⟨?_, ?_, ?_, ?_, ?_, ?_⟩ <;>
    · split_ifs with h1 h2 h3 h4 h5 <;> simp_all <;> intros <;> linarith

theorem landslide_probabilityRaw_bounds (x : Landslide.Input) :
    0 ≤ Landslide.probabilityRaw x ∧ Landslide.probabilityRaw x ≤ 0.99 := by
  unfold Landslide.probabilityRaw Landslide.regionalAdjust
  exact ⟨le_clip _ _ _, clip_le (by norm_num) _⟩

/-- Claim C3 (amended): `LandslideModel.predict` returns a probability in
`[0, 0.99]` (the 3-decimal rounding of the clamped raw value, hence within
1/2000 of it), and its `risk_level` is the shared 6-band table evaluated at
the raw pre-rounding probability — not at the returned rounded probability,
from which it can differ when rounding crosses a band boundary. -/
theorem landslide_predict_bounds_and_level (x : Landslide.Input) :
    (Landslide.predict x).probability =
      roundTo 3 (Landslide.probabilityRaw x) ∧
    0 ≤ (Landslide.predict x).probability ∧
    (Landslide.predict x).probability ≤ 0.99 ∧
    0 ≤ Landslide.probabilityRaw x ∧ Landslide.probabilityRaw x ≤ 0.99 ∧
    |(Landslide.predict x).probability - Landslide.probabilityRaw x|
      ≤ 1/2000 ∧
    (Landslide.predict x).riskLevel =
      classifyProbabilityRisk (Landslide.probabilityRaw x) ∧
    ((Landslide.predict x).riskLevel = "Very Low"
      ↔ Landslide.probabilityRaw x < 0.1) ∧
    ((Landslide.predict x).riskLevel = "Low"
      ↔ 0.1 ≤ Landslide.probabilityRaw x ∧ Landslide.probabilityRaw x < 0.25) ∧
    ((Landslide.predict x).riskLevel = "Moderate"
      ↔ 0.25 ≤ Landslide.probabilityRaw x ∧ Landslide.probabilityRaw x < 0.45) ∧
    ((Landslide.predict x).riskLevel = "High"
      ↔ 0.45 ≤ Landslide.probabilityRaw x ∧ Landslide.probabilityRaw x < 0.65) ∧
    ((Landslide.predict x).riskLevel = "Very High"
      ↔ 0.65 ≤ Landslide.probabilityRaw x ∧ Landslide.probabilityRaw x < 0.8) ∧
    ((Landslide.predict x).riskLevel = "Extreme"
      ↔ 0.8 ≤ Landslide.probabilityRaw x) := by
  obtain ⟨hr0, hr1⟩ := landslide_probabilityRaw_bounds x
  have hs := classifyProbabilityRisk_spec (Landslide.probabilityRaw x)
  refine ⟨rfl, ?_, ?_, hr0, hr1, ?_, rfl,
    hs.1, hs.2.1, hs.2.2.1, hs.2.2.2.1, hs.2.2.2.2.1, hs.2.2.2.2.2⟩
  · have h := le_roundTo_of_le (α := ℝ) 3 (x := Landslide.probabilityRaw x)
      (m := 0) (by push_cast; simpa using hr0)
    simpa using h
  · have h := roundTo_le_of_le (α := ℝ) 3 (x := Landslide.probabilityRaw x)
      (m := 990) (by push_cast; norm_num; linarith)
    calc (Landslide.predict x).probability
        ≤ ((990 : ℤ) : ℝ) / 10 ^ 3 := h
      _ = 0.99 := by norm_num
  · have h := abs_roundTo_sub_le (α := ℝ) 3 (Landslide.probabilityRaw x)
    calc |(Landslide.predict x).probability - Landslide.probabilityRaw x|
        ≤ (1/2) / 10 ^ 3 := h
      _ = 1/2000 := by norm_num

/-- Counterexample to claim C3 as stated: at a concrete input the raw
probability is exactly 0.0998, so the returned probability rounds to 0.1;
the returned risk level is "Very Low" (classified from the raw value), but
the 6-band table evaluated at the returned rounded probability 0.1 gives
"Low". -/
theorem landslide_level_vs_rounded_probability_cex :
    (Landslide.predict landslideCexInput).riskLevel = "Very Low" ∧
    (Landslide.predict landslideCexInput).probability = 0.1 ∧
    classifyProbabilityRisk (Landslide.predict landslideCexInput).probability
      = "Low" ∧
    ("Very Low" : String) ≠ "Low" := by
  have hraw : Landslide.probabilityRaw landslideCexInput = 0.0998 := by
    unfold Landslide.probabilityRaw Landslide.weightedSum
      Landslide.regionalAdjust Landslide.slopeFactor Landslide.rainfallFactor
      Landslide.soilFactor Landslide.vegetationFactor
      Landslide.curvatureFactor Landslide.faultProximityFactor
      Landslide.riverProximityFactor Landslide.elevationFactor
      Landslide.aspectFactor radians clip landslideCexInput
    norm_num [Real.sin_zero, min_def, max_def,
      show Landslide.soilTypeRisk "Sand" = 0.2 from rfl,
      show Landslide.lithologyRisk "granite" = 0.2 from rfl,
      show Landslide.coverRisk "forest" = 0.1 from rfl]
  have hprob : (Landslide.predict landslideCexInput).probability = 0.1 := by
    show roundTo 3 (Landslide.probabilityRaw landslideCexInput) = 0.1
    rw [hraw]
    norm_num [roundTo, pyRound, Int.fract]
  refine ⟨?_, hprob, ?_, by decide⟩
  · show classifyProbabilityRisk (Landslide.probabilityRaw landslideCexInput)
      = "Very Low"
    rw [hraw]
    norm_num [classifyProbabilityRisk]
  · rw [hprob]
    norm_num [classifyProbabilityRisk]

/-! ## Erosion model: claim C7 -/

theorem classifySoilLoss_spec (a : ℝ) (h : 0 ≤ a) :
    (Erosion.classifySoilLoss a = "Very Low" ↔ a < 2) ∧
    (Erosion.classifySoilLoss a = "Low" ↔ 2 ≤ a ∧ a < 5) ∧
    (Erosion.classifySoilLoss a = "Moderate" ↔ 5 ≤ a ∧ a < 10) ∧
    (Erosion.classifySoilLoss a = "High" ↔ 10 ≤ a ∧ a < 20) ∧
    (Erosion.classifySoilLoss a = "Very High" ↔ 20 ≤ a ∧ a < 50) ∧
    (Erosion.classifySoilLoss a = "Severe" ↔ 50 ≤ a) := by
  unfold Erosion.classifySoilLoss
  refine ⟨?_, ?_, ?_, ?_, ?_, ?_⟩ <;>
    · split_ifs with h1 h2 h3 h4 h5 <;> simp_all <;> intros <;> linarith

/-- Claim C7: for every call with non-negative annual precipitation, the
returned `soil_loss_tons_ha_yr` equals `max(0, round(R*K*LS*C*P, 2))` with
`R = 0.0483 * precip^1.61` clamped to `[0, 20000]`, `K` clamped to
`[0, 0.8]`, `LS` clamped to `[0.01, 100]` and `C` clamped to `[0, 1]`; the
result is always ≥ 0 and the risk level follows the 6-band soil-loss table
(Very Low < 2, Low < 5, Moderate < 10, High < 20, Very High < 50,
Severe ≥ 50). -/
theorem erosion_calculate_rusle_spec
    (annualPrecipMm sandPct siltPct clayPct organicCarbonPct
      slopePct slopeLengthM : ℝ) (landCover : String) (ndvi : ℝ)
    (conservationPractice : String) (h : 0 ≤ annualPrecipMm) :
    Erosion.CalculateSpec annualPrecipMm sandPct siltPct clayPct
      organicCarbonPct slopePct slopeLengthM landCover ndvi
      conservationPractice := by
  unfold Erosion.CalculateSpec
  have ha : (0:ℝ) ≤ max 0 (roundTo 2 (Erosion.rFactor annualPrecipMm *
      Erosion.kFactor sandPct siltPct clayPct organicCarbonPct *
      Erosion.lsFactor slopePct slopeLengthM *
      Erosion.cFactor landCover ndvi *
      Erosion.pFactor conservationPractice slopePct)) := le_max_left _ _
  have hs := classifySoilLoss_spec _ ha
  refine ⟨rfl, ?_, le_clip _ _ _, clip_le (by norm_num) _,
    le_clip _ _ _, clip_le (by norm_num) _,
    le_clip _ _ _, clip_le (by norm_num) _,
    ha, rfl, hs.1, hs.2.1, hs.2.2.1, hs.2.2.2.1, hs.2.2.2.2.1,
    hs.2.2.2.2.2⟩
  unfold Erosion.rFactor
  rcases eq_or_lt_of_le h with heq | hpos
  · rw [if_pos (le_of_eq heq.symm)]
    rw [← heq, Real.zero_rpow (by norm_num)]
    norm_num
  · rw [if_neg (not_le.mpr hpos)]
    rfl

/-- Closed witness for claim C7 at the spec's own end-to-end example input
(800 mm precipitation, 40/35/25 texture, 2.5 % organic carbon, 17.6 % slope,
cropland with contour farming). -/
theorem erosion_calculate_rusle_spec_witness :
    (0:ℝ) ≤ 800 ∧
    Erosion.CalculateSpec 800 40 35 25 2.5 17.6 100 "cropland" 0.5
      "contour_farming" :=
  ⟨by norm_num,
    erosion_calculate_rusle_spec 800 40 35 25 2.5 17.6 100 "cropland" 0.5
      "contour_farming" (by norm_num)⟩

/-! ## Soil texture: claim C8 -/

theorem roundTo_one_sum_helper (m n : ℤ) :
    ((m:ℝ)/10) + ((n:ℝ)/10) + roundTo 1 (100 - (m:ℝ)/10 - (n:ℝ)/10) = 100 := by
  have h : (100 : ℝ) - (m:ℝ)/10 - (n:ℝ)/10 = ((1000 - m - n : ℤ) : ℝ) / 10 ^ 1 := by
    push_cast
    ring
  rw [h, roundTo_intCast_div]
  push_cast
  ring

theorem textureFinalize_sum (sand silt clay : ℝ) :
    (Soil.textureFinalize sand silt clay).1 +
      (Soil.textureFinalize sand silt clay).2.1 +
      (Soil.textureFinalize sand silt clay).2.2 = 100 := by
  unfold Soil.textureFinalize
  dsimp only
  have key : ∀ x y : ℝ,
      roundTo 1 x + roundTo 1 y +
        roundTo 1 (100 - roundTo 1 x - roundTo 1 y) = 100 := by
    intro x y
    have hx : roundTo 1 x = ((pyRound (x * 10 ^ 1) : ℤ) : ℝ) / 10 := by
      unfold roundTo
      norm_num
    have hy : roundTo 1 y = ((pyRound (y * 10 ^ 1) : ℤ) : ℝ) / 10 := by
      unfold roundTo
      norm_num
    rw [hx, hy]
    exact roundTo_one_sum_helper _ _
  exact key _ _

theorem modelTexture_sum_close (sandPred siltPred : ℝ) :
    |(Soil.modelTexture sandPred siltPred).1 +
      (Soil.modelTexture sandPred siltPred).2.1 +
      (Soil.modelTexture sandPred siltPred).2.2 - 100| ≤ 0.15 := by
  unfold Soil.modelTexture
  dsimp only
  have h1 : (5:ℝ) ≤ clip 5 90 sandPred := le_clip _ _ _
  have h2 : (5:ℝ) ≤ clip 5 80 siltPred := le_clip _ _ _
  have h3 : (5:ℝ) ≤ clip 5 75 (100 - clip 5 90 sandPred - clip 5 80 siltPred) :=
    le_clip _ _ _
  set s := clip 5 90 sandPred
  set si := clip 5 80 siltPred
  set c := clip 5 75 (100 - s - si)
  have htot : s + si + c ≠ 0 := by positivity
  have hsum : s / (s + si + c) * 100 + si / (s + si + c) * 100 +
      c / (s + si + c) * 100 = 100 := by
    field_simp
    ring
  have hb1 := abs_le.mp (abs_roundTo_sub_le 1 (s / (s + si + c) * 100))
  have hb2 := abs_le.mp (abs_roundTo_sub_le 1 (si / (s + si + c) * 100))
  have hb3 := abs_le.mp (abs_roundTo_sub_le 1 (c / (s + si + c) * 100))
  rw [abs_le]
  norm_num at hb1 hb2 hb3 ⊢
  constructor <;> linarith

/-- Claim C8: every texture estimate sums to 100 within a tolerance of 1.0 —
exactly 100 on the analytical path (the final clay percentage is computed as
the rounded remainder to 100), and within 0.15 on the model-backed path (the
three renormalized percentages sum to exactly 100 before their 1-decimal
rounding). -/
theorem soil_texture_percentages_sum_100 :
    (∀ latitude longitude elevation meanPrecip : ℝ,
      (Soil.analyticalTexture latitude longitude elevation meanPrecip).1 +
        (Soil.analyticalTexture latitude longitude elevation meanPrecip).2.1 +
        (Soil.analyticalTexture latitude longitude elevation meanPrecip).2.2
        = 100) ∧
    (∀ sandPred siltPred : ℝ,
      |(Soil.modelTexture sandPred siltPred).1 +
        (Soil.modelTexture sandPred siltPred).2.1 +
        (Soil.modelTexture sandPred siltPred).2.2 - 100| ≤ 1) := by
  constructor
  · intro latitude longitude elevation meanPrecip
    unfold Soil.analyticalTexture
    dsimp only
    have key : ∀ (P : Prop) (hP : Decidable P) (a b c d e f : ℝ),
        (@ite _ P hP (Soil.textureFinalize a b c)
            (Soil.textureFinalize d e f)).1 +
          (@ite _ P hP (Soil.textureFinalize a b c)
            (Soil.textureFinalize d e f)).2.1 +
          (@ite _ P hP (Soil.textureFinalize a b c)
            (Soil.textureFinalize d e f)).2.2 = 100 := by
      intro P hP a b c d e f
      rcases hP with hP | hP
      · simp only [if_neg hP]
        exact textureFinalize_sum _ _ _
      · simp only [if_pos hP]
        exact textureFinalize_sum _ _ _
    exact key _ _ _ _ _ _ _ _
  · intro sandPred siltPred
    have h := modelTexture_sum_close sandPred siltPred
    calc |(Soil.modelTexture sandPred siltPred).1 +
          (Soil.modelTexture sandPred siltPred).2.1 +
          (Soil.modelTexture sandPred siltPred).2.2 - 100| ≤ 0.15 := h
      _ ≤ 1 := by norm_num

/-! ## Contributing factors: claim C9 -/

theorem topFactors_sel_props (k : ℕ) (names : String → String)
    (scores : List (String × ℝ)) :
    ∃ sel : List (String × ℝ),
      topFactors k names scores = sel.map (fun p => names p.1) ∧
      sel.Sorted (fun a b => b.2 ≤ a.2) ∧
      (∀ p ∈ sel, p ∈ scores ∧ (0.3:ℝ) < p.2) ∧
      sel.length ≤ k := by
  classical
  refine ⟨((List.insertionSort (fun a b : String × ℝ => b.2 ≤ a.2)
      scores).take k).filter (fun p => decide ((0.3:ℝ) < p.2)),
    rfl, ?_, ?_, ?_⟩
  · letI : IsTotal (String × ℝ) (fun a b => b.2 ≤ a.2) :=
      ⟨fun a b => le_total b.2 a.2⟩
    letI : IsTrans (String × ℝ) (fun a b => b.2 ≤ a.2) :=
      ⟨fun a b c h1 h2 => le_trans h2 h1⟩
    have hs := List.sorted_insertionSort (fun a b : String × ℝ => b.2 ≤ a.2)
      scores
    exact List.Pairwise.sublist
      ((List.filter_sublist _).trans (List.take_sublist _ _)) hs
  · intro p hp
    have h1 := List.mem_filter.mp hp
    refine ⟨?_, by simpa using h1.2⟩
    have h2 : p ∈ List.insertionSort (fun a b : String × ℝ => b.2 ≤ a.2)
        scores := (List.take_sublist _ _).subset h1.1
    exact (List.perm_insertionSort _ scores).mem_iff.mp h2
  · exact le_trans (List.length_filter_le _ _)
      (by rw [List.length_take]; exact min_le_left _ _)

theorem topFactors_mem_of_high (k : ℕ) (names : String → String)
    (scores : List (String × ℝ)) (p : String × ℝ) (hp : p ∈ scores)
    (hv : (0.3:ℝ) < p.2)
    (hc : scores.countP (fun q => decide (p.2 ≤ q.2)) ≤ k) :
    names p.1 ∈ topFactors k names scores := by
  classical
  unfold topFactors
  have hperm := List.perm_insertionSort (fun a b : String × ℝ => b.2 ≤ a.2)
    scores
  set l := List.insertionSort (fun a b : String × ℝ => b.2 ≤ a.2) scores
    with hl
  have hcount : l.countP (fun q => decide (p.2 ≤ q.2)) =
      scores.countP (fun q => decide (p.2 ≤ q.2)) := hperm.countP_eq _
  have hpl : p ∈ l := hperm.mem_iff.mpr hp
  have hsorted : l.Sorted (fun a b => b.2 ≤ a.2) := by
    letI : IsTotal (String × ℝ) (fun a b => b.2 ≤ a.2) :=
      ⟨fun a b => le_total b.2 a.2⟩
    letI : IsTrans (String × ℝ) (fun a b => b.2 ≤ a.2) :=
      ⟨fun a b c h1 h2 => le_trans h2 h1⟩
    exact List.sorted_insertionSort _ scores
  have htake : p ∈ l.take k := by
    by_contra hnot
    have hsplit : l.take k ++ l.drop k = l := List.take_append_drop k l
    have hdrop : p ∈ l.drop k := by
      rcases List.mem_append.mp (hsplit ▸ hpl) with h | h
      · exact absurd h hnot
      · exact h
    have hklen : k < l.length := by
      by_contra hk
      push_neg at hk
      rw [List.take_of_length_le hk] at hnot
      exact hnot hpl
    have hpair := (List.pairwise_append.mp
      (show ((l.take k) ++ (l.drop k)).Pairwise (fun a b => b.2 ≤ a.2) by
        rw [hsplit]; exact hsorted)).2.2
    have hall : ∀ x ∈ l.take k, (fun q => decide (p.2 ≤ q.2)) x = true := by
      intro x hx
      have := hpair x hx p hdrop
      simpa using this
    have hcnt_take : (l.take k).countP (fun q => decide (p.2 ≤ q.2)) = k := by
      rw [List.countP_eq_length.mpr hall, List.length_take]
      omega
    have hcnt_drop : 0 < (l.drop k).countP (fun q => decide (p.2 ≤ q.2)) := by
      rw [List.countP_pos]
      exact ⟨p, hdrop, by simp⟩
    have hcnt_all : l.countP (fun q => decide (p.2 ≤ q.2)) =
        (l.take k).countP (fun q => decide (p.2 ≤ q.2)) +
          (l.drop k).countP (fun q => decide (p.2 ≤ q.2)) := by
      rw [← List.countP_append, hsplit]
    omega
  refine List.mem_map.mpr ⟨p, ?_, rfl⟩
  exact List.mem_filter.mpr ⟨htake, by simpa using hv⟩

theorem topFactors_not_mem_of_outranked (k : ℕ) (names : String → String)
    (scores : List (String × ℝ)) (p : String × ℝ) (hp : p ∈ scores)
    (hc : k ≤ scores.countP (fun q => decide (p.2 < q.2)))
    (huniq : ∀ q ∈ scores, names q.1 = names p.1 → q = p) :
    names p.1 ∉ topFactors k names scores := by
  classical
  intro hmem
  unfold topFactors at hmem
  obtain ⟨q, hq, hname⟩ := List.mem_map.mp hmem
  have hqf := List.mem_filter.mp hq
  have hperm := List.perm_insertionSort (fun a b : String × ℝ => b.2 ≤ a.2)
    scores
  set l := List.insertionSort (fun a b : String × ℝ => b.2 ≤ a.2) scores
    with hl
  have hqs : q ∈ scores :=
    hperm.mem_iff.mp ((List.take_sublist _ _).subset hqf.1)
  have hqp : q = p := huniq q hqs hname
  have hptake : p ∈ l.take k := hqp ▸ hqf.1
  have hsorted : l.Sorted (fun a b => b.2 ≤ a.2) := by
    letI : IsTotal (String × ℝ) (fun a b => b.2 ≤ a.2) :=
      ⟨fun a b => le_total b.2 a.2⟩
    letI : IsTrans (String × ℝ) (fun a b => b.2 ≤ a.2) :=
      ⟨fun a b c h1 h2 => le_trans h2 h1⟩
    exact List.sorted_insertionSort _ scores
  have hsplit : l.take k ++ l.drop k = l := List.take_append_drop k l
  have hpair := (List.pairwise_append.mp
    (show ((l.take k) ++ (l.drop k)).Pairwise (fun a b => b.2 ≤ a.2) by
      rw [hsplit]; exact hsorted)).2.2
  have hdrop0 : (l.drop k).countP (fun q => decide (p.2 < q.2)) = 0 := by
    rw [List.countP_eq_zero]
    intro y hy
    have := hpair p hptake y hy
    simpa using not_lt.mpr this
  have hcl : l.countP (fun q => decide (p.2 < q.2)) =
      scores.countP (fun q => decide (p.2 < q.2)) := hperm.countP_eq _
  have hsumc : l.countP (fun q => decide (p.2 < q.2)) =
      (l.take k).countP (fun q => decide (p.2 < q.2)) +
        (l.drop k).countP (fun q => decide (p.2 < q.2)) := by
    rw [← List.countP_append, hsplit]
  have hlenk : (l.take k).length ≤ k := by
    rw [List.length_take]
    exact min_le_left _ _
  have hle : (l.take k).countP (fun q => decide (p.2 < q.2)) ≤
      (l.take k).length := List.countP_le_length _
  have heq : (l.take k).countP (fun q => decide (p.2 < q.2)) =
      (l.take k).length := by omega
  have hall := List.countP_eq_length.mp heq p hptake
  simp at hall

theorem topFactors_satisfies_spec (k : ℕ) (names : String → String)
    (scores : List (String × ℝ)) :
    ContributingFactorsSpec k names scores (topFactors k names scores) :=
  ⟨topFactors_sel_props k names scores,
    fun p hp hv hc => topFactors_mem_of_high k names scores p hp hv hc,
    fun p hp hc huniq =>
      topFactors_not_mem_of_outranked k names scores p hp hc huniq⟩

/-- Claim C9: for both hazard models that emit a contributing-factors list
from a weighting table (landslide keeps the top 3, fire the top 2), the
list consists of factor names of entries among the top-k scores exceeding
0.3, in descending score order, and includes every factor exceeding 0.3
that is matched or beaten by at most k scores in total. -/
theorem contributing_factors_top_over_threshold :
    (∀ x : Landslide.Input,
      ContributingFactorsSpec 3 Landslide.factorName (Landslide.scoresOf x)
        ((Landslide.predict x).contributingFactors)) ∧
    (∀ x : Flood.Input,
      ContributingFactorsSpec 3 Flood.factorName (Flood.scoresOf x)
        ((Flood.predict x).contributingFactors)) ∧
    (∀ (month : ℕ) (x : Fire.Input),
      ContributingFactorsSpec 2 Fire.factorName (Fire.scoresOf x)
        ((Fire.predict month x).contributingFactors)) := by
  refine ⟨?_, ?_, ?_⟩
  · intro x
    exact topFactors_satisfies_spec 3 Landslide.factorName
      (Landslide.scoresOf x)
  · intro x
    exact topFactors_satisfies_spec 3 Flood.factorName (Flood.scoresOf x)
  · intro month x
    exact topFactors_satisfies_spec 2 Fire.factorName (Fire.scoresOf x)

/-- Closed witness for claim C9 at concrete landslide, flood and fire
inputs. -/
theorem contributing_factors_top_over_threshold_witness :
    ContributingFactorsSpec 3 Landslide.factorName
      (Landslide.scoresOf landslideCexInput)
      ((Landslide.predict landslideCexInput).contributingFactors) ∧
    ContributingFactorsSpec 3 Flood.factorName
      (Flood.scoresOf floodWitnessInput)
      ((Flood.predict floodWitnessInput).contributingFactors) ∧
    ContributingFactorsSpec 2 Fire.factorName
      (Fire.scoresOf fireWitnessInput)
      ((Fire.predict 7 fireWitnessInput).contributingFactors) :=
  ⟨contributing_factors_top_over_threshold.1 landslideCexInput,
    contributing_factors_top_over_threshold.2.1 floodWitnessInput,
    contributing_factors_top_over_threshold.2.2 7 fireWitnessInput⟩
